import Mathlib

/-!
Verification of the RTP/JPEG packetizer of rpi-webrtc-streamer
(src/rust-mjpeg-rtp/src/rtp/mod.rs and src/rust-mjpeg-rtp/src/rtp/jpeg_parser.rs).

Bytes are modelled as `Nat` values (always < 256 at the points where the Rust
code produces them) and byte buffers as `List Nat`.  The Rust loops are
embedded as structurally recursive functions on an explicit fuel argument so
that they evaluate by `decide`/`rfl`; every top-level entry point passes fuel
that strictly exceeds the number of iterations the Rust loop can perform, and
the iteration lemmas below are proved for the exact fuel the entry points
pass, so the fuel never changes observable behaviour.
-/

/-- Big-endian 16-bit read, mirroring Rust's
u16::from_be_bytes([a, b]) as usize. -/
def be16 (a b : Nat) : Nat := a * 256 + b

/-- Error type of the JPEG parser, mirroring JpegParseError in
src/rtp/jpeg_parser.rs. -/
inductive JpegParseError where
  | TooShort
  | MissingSoi
  | MissingSos
  | MissingEoi
  | Unsupported
deriving DecidableEq, Repr

/-- Parsed JPEG information, mirroring struct JpegInfo in
src/rtp/jpeg_parser.rs (scan_data is a byte sequence; the Bytes refcount
optimisation is irrelevant to values). -/
structure JpegInfo where
  q_tables : List (List Nat)
  width : Nat
  height : Nat
  jpeg_type : Nat
  scan_data : List Nat
deriving DecidableEq, Repr

/-- The fallback JpegInfo built after the marker loop of parse_jpeg_for_rtp
exits without returning (every `break` in the loop flows to this return at
jpeg_parser.rs:203-209): width/height are clamped up to 640/480 and the whole
input is used as scan data. -/
def fallbackInfo (data : List Nat) (q_tables : List (List Nat))
    (width height jpeg_type : Nat) : JpegInfo :=
  { q_tables := q_tables, width := max width 640, height := max height 480,
    jpeg_type := jpeg_type, scan_data := data }

/-- The scan_end search loop inside the SOS branch of parse_jpeg_for_rtp
(jpeg_parser.rs:107-113): starting from e, advance until the first
0xFF 0xD9 pair, stopping at data.length - 1.  Structural recursion on fuel;
callers pass fuel = data.length - 1 - e, an exact bound on the iterations. -/
def scanEndLoop (data : List Nat) : Nat → Nat → Nat
  | 0, e => e
  | fuel + 1, e =>
    if e < data.length - 1 then
      if data.getD e 0 = 0xFF ∧ data.getD (e + 1) 0 = 0xD9 then e
      else scanEndLoop data fuel (e + 1)
    else e

/-- The marker-walk loop of parse_jpeg_for_rtp (jpeg_parser.rs:79-199).
Marker constants are inlined: 0xD8 SOI, 0xD9 EOI, 0xDA SOS, 0xDB DQT,
0xC0 SOF0.  Rust's `pos` is advanced by 2 when a marker byte is read; the
positions used here are expressed relative to the pre-advance `pos`.
Two corners where the Rust code panics
(a DQT whose declared length is below 2, where the slice
data[pos+2..pos+length] has start > end at jpeg_parser.rs:143, and a
3-component SOF0 whose sampling byte sits exactly at the end of the buffer,
where data[pos+9] is read at index = len at jpeg_parser.rs:169) are
totalized here via truncated subtraction and the getD default, continuing
to the fallback.  parseLoopP below models those two sites precisely,
returning none for the panic; parseLoopP_agrees proves this total function
computes the code's result whenever the code returns at all, and the claim
about the no-SOS fallback is settled against the panic-aware model.
Fuel: each iteration advances pos
by at least 1 and the loop runs while pos < data.length - 1, so
fuel = data.length (what parse_jpeg_for_rtp passes) is strictly more than
the possible number of iterations. -/
def parseLoop (data : List Nat) : Nat → Nat → List (List Nat) → Nat → Nat → Nat →
    Except JpegParseError JpegInfo
  | 0, _, q_tables, width, height, jpeg_type =>
    .ok (fallbackInfo data q_tables width height jpeg_type)
  | fuel + 1, pos, q_tables, width, height, jpeg_type =>
    if pos < data.length - 1 then
      if data.getD pos 0 ≠ 0xFF then
        parseLoop data fuel (pos + 1) q_tables width height jpeg_type
      else
        let marker := data.getD (pos + 1) 0
        if marker = 0xD8 then
          parseLoop data fuel (pos + 2) q_tables width height jpeg_type
        else if marker = 0xD9 then
          .ok (fallbackInfo data q_tables width height jpeg_type)
        else if marker = 0xDA then
          if data.length < pos + 4 then .error .MissingSos
          else
            let len2 := be16 (data.getD (pos + 2) 0) (data.getD (pos + 3) 0)
            let scan_start := pos + 2 + len2
            let scan_end := scanEndLoop data (data.length - 1 - scan_start) scan_start
            if data.length - 1 ≤ scan_end then .error .MissingEoi
            else .ok { q_tables := q_tables, width := width, height := height,
                       jpeg_type := jpeg_type,
                       scan_data := (data.drop scan_start).take (scan_end - scan_start) }
        else if marker = 0xDB then
          if data.length < pos + 4 then
            .ok (fallbackInfo data q_tables width height jpeg_type)
          else
            let len2 := be16 (data.getD (pos + 2) 0) (data.getD (pos + 3) 0)
            if data.length < pos + 2 + len2 then
              .ok (fallbackInfo data q_tables width height jpeg_type)
            else
              parseLoop data fuel (pos + 2 + len2)
                (q_tables ++ [(data.drop (pos + 4)).take (len2 - 2)])
                width height jpeg_type
        else if marker = 0xC0 then
          if data.length < pos + 4 then
            .ok (fallbackInfo data q_tables width height jpeg_type)
          else
            let len2 := be16 (data.getD (pos + 2) 0) (data.getD (pos + 3) 0)
            if data.length < pos + 9 then
              .ok (fallbackInfo data q_tables width height jpeg_type)
            else
              let height2 := be16 (data.getD (pos + 5) 0) (data.getD (pos + 6) 0)
              let width2 := be16 (data.getD (pos + 7) 0) (data.getD (pos + 8) 0)
              let jpeg_type2 :=
                if pos + 11 ≤ data.length then
                  if data.getD (pos + 9) 0 = 3 then
                    let s := data.getD (pos + 11) 0
                    let y_h := s / 16 % 16
                    let y_v := s % 16
                    if y_h = 2 ∧ y_v = 2 then 0
                    else if y_h = 2 ∧ y_v = 1 then 1
                    else jpeg_type
                  else jpeg_type
                else jpeg_type
              parseLoop data fuel (pos + 2 + len2) q_tables width2 height2 jpeg_type2
        else if marker = 0x00 ∨ marker = 0xFF then
          parseLoop data fuel (pos + 1) q_tables width height jpeg_type
        else
          if data.length < pos + 4 then
            .ok (fallbackInfo data q_tables width height jpeg_type)
          else
            let len2 := be16 (data.getD (pos + 2) 0) (data.getD (pos + 3) 0)
            parseLoop data fuel (pos + 2 + len2) q_tables width height jpeg_type
    else .ok (fallbackInfo data q_tables width height jpeg_type)

/-- parse_jpeg_for_rtp (jpeg_parser.rs:61-210): SOI check, then the marker
walk starting at pos = 2 with empty state. -/
def parse_jpeg_for_rtp (data : List Nat) : Except JpegParseError JpegInfo :=
  if data.length < 4 then .error .TooShort
  else if data.getD 0 0 ≠ 0xFF ∨ data.getD 1 0 ≠ 0xD8 then .error .MissingSoi
  else parseLoop data data.length 2 [] 0 0 0

/-- The free function validate_jpeg of jpeg_parser.rs:213-227
(length, SOI and EOI checks). -/
def validate_jpeg (data : List Nat) : Except JpegParseError Unit :=
  if data.length < 4 then .error .TooShort
  else if data.getD 0 0 ≠ 0xFF ∨ data.getD 1 0 ≠ 0xD8 then .error .MissingSoi
  else if data.getD (data.length - 2) 0 ≠ 0xFF ∨ data.getD (data.length - 1) 0 ≠ 0xD9 then
    .error .MissingEoi
  else .ok ()

/-- Error type of the packetizer, mirroring PacketizerError in src/rtp/mod.rs.
InvalidJpeg carries the formatted parse error (modelled by the error value
itself rather than its display string); FrameTooLarge and InvalidMtu carry
their usize payloads. -/
inductive PacketizerError where
  | EmptyData
  | MissingSoiMarker
  | MissingEoiMarker
  | InvalidJpeg (e : JpegParseError)
  | FrameTooLarge (n : Nat)
  | InvalidMtu (n : Nat)
deriving DecidableEq, Repr

/-- Configuration part of struct RtpPacketizer (mod.rs:66-84).  The mutable
sequence number is threaded explicitly through packetize_jpeg below, and the
cached JpegInfo is the Option JpegInfo produced by extract_jpeg_payload;
the statistics counters are not modelled (no claim mentions them). -/
structure RtpPacketizer where
  payload_type : Nat
  ssrc : Nat
  mtu : Nat
  max_payload_size : Nat
deriving DecidableEq, Repr

def RTP_VERSION : Nat := 2
def RTP_PAYLOAD_TYPE_JPEG : Nat := 26
def RTP_HEADER_SIZE : Nat := 12
def JPEG_HEADER_SIZE : Nat := 8
def DEFAULT_MTU : Nat := 1400

/-- RtpPacketizer::new (mod.rs:92-108): mtu 0 is replaced by DEFAULT_MTU,
max_payload_size = mtu.saturating_sub(12 + 8) clamped to at least 1. -/
def RtpPacketizer.new (ssrc mtu : Nat) : RtpPacketizer :=
  let mtu := if mtu = 0 then DEFAULT_MTU else mtu
  let max_payload_size := mtu - (RTP_HEADER_SIZE + JPEG_HEADER_SIZE)
  { payload_type := RTP_PAYLOAD_TYPE_JPEG, ssrc := ssrc, mtu := mtu,
    max_payload_size := max max_payload_size 1 }

/-- The method RtpPacketizer::validate_jpeg (mod.rs:276-293).  Note that it
differs from the parser's free validate_jpeg: inputs shorter than 4 bytes get
MissingSoiMarker here. -/
def RtpPacketizer.validate_jpeg (data : List Nat) : Except PacketizerError Unit :=
  if data.length < 4 then .error .MissingSoiMarker
  else if data.getD 0 0 ≠ 0xFF ∨ data.getD 1 0 ≠ 0xD8 then .error .MissingSoiMarker
  else if data.getD (data.length - 2) 0 ≠ 0xFF ∨ data.getD (data.length - 1) 0 ≠ 0xD9 then
    .error .MissingEoiMarker
  else .ok ()

/-- The method RtpPacketizer::extract_jpeg_payload (mod.rs:299-316),
declared outside the namespace so that validate_jpeg below refers to the
parser's free function, as the Rust body does.  Returns the cached JpegInfo
(Some on parse success, None on the fallback path) together with the payload
bytes: the scan data on success, the whole JPEG on parse failure (after the
free validate_jpeg re-check). -/
def extract_jpeg_payload (data : List Nat) :
    Except PacketizerError (Option JpegInfo × List Nat) :=
  match parse_jpeg_for_rtp data with
  | .ok info => .ok (some info, info.scan_data)
  | .error _ =>
    match validate_jpeg data with
    | .error e => .error (.InvalidJpeg e)
    | .ok _ => .ok (none, data)

/-- RtpPacketizer::build_rtp_packet (mod.rs:183-273).  Each list element is
one emitted byte, in emission order: the 12-byte RTP header, the 8-byte JPEG
header, the optional quantization-table header, then the payload.  The u8/u16
casts are the `% 256` / `% 65536` reductions and the >> shifts are the
corresponding divisions; byte 0 is (RTP_VERSION << 6) | 0 = 0x80. -/
def RtpPacketizer.build_rtp_packet (p : RtpPacketizer) (jpeg_info : Option JpegInfo)
    (seq_num timestamp fragment_offset width height : Nat) (marker : Bool)
    (payload : List Nat) : List Nat :=
  let include_qtables := (fragment_offset == 0) && jpeg_info.isSome
  let qtable_bytes : List Nat :=
    if include_qtables then
      match jpeg_info with
      | some info =>
        if info.q_tables.isEmpty then []
        else
          let tables_size := (info.q_tables.map List.length).sum
          0 :: 0 :: (tables_size % 65536 / 256) :: (tables_size % 65536 % 256) ::
            info.q_tables.flatten
      | none => []
    else []
  let jpeg_type := match jpeg_info with | some i => i.jpeg_type | none => 0
  let q_value := if include_qtables then 128 else 255
  [0x80,
   if marker then 0x80 ||| p.payload_type else p.payload_type,
   seq_num % 65536 / 256, seq_num % 65536 % 256,
   timestamp / 16777216 % 256, timestamp / 65536 % 256, timestamp / 256 % 256, timestamp % 256,
   p.ssrc / 16777216 % 256, p.ssrc / 65536 % 256, p.ssrc / 256 % 256, p.ssrc % 256,
   0,
   fragment_offset / 65536 % 256, fragment_offset / 256 % 256, fragment_offset % 256,
   jpeg_type, q_value, width / 8 % 256, height / 8 % 256] ++ qtable_bytes ++ payload

/-- Sequence-number step of packetize_jpeg (mod.rs:166):
seq_num.wrapping_add(1) & 0xFFFF on a u32, that is (s+1) mod 2^32
masked to the low 16 bits (the mask is mod 65536). -/
def nextSeq (s : Nat) : Nat := (s + 1) % 4294967296 % 65536

/-- The fragmentation loop of packetize_jpeg (mod.rs:145-169).  Arguments
after the frame data: fuel, offset, fragment_offset, seq_num.  Each
iteration consumes min(remaining, max_payload_size) payload bytes; with
max_payload_size ≥ 1 (guaranteed by RtpPacketizer::new) the loop performs at
most jpeg_payload.length iterations, so the fuel jpeg_payload.length + 1
passed by packetize_jpeg is never exhausted. -/
def RtpPacketizer.fragLoop (p : RtpPacketizer) (jpeg_info : Option JpegInfo)
    (jpeg_payload : List Nat) (width height timestamp : Nat) :
    Nat → Nat → Nat → Nat → List (List Nat) × Nat
  | 0, _, _, seq_num => ([], seq_num)
  | fuel + 1, offset, fragment_offset, seq_num =>
    if offset < jpeg_payload.length then
      let payload_size := min (jpeg_payload.length - offset) p.max_payload_size
      let is_last : Bool := decide (jpeg_payload.length ≤ offset + payload_size)
      let packet := p.build_rtp_packet jpeg_info seq_num timestamp fragment_offset
        width height is_last ((jpeg_payload.drop offset).take payload_size)
      let rest := p.fragLoop jpeg_info jpeg_payload width height timestamp fuel
        (offset + payload_size) (fragment_offset + payload_size) (nextSeq seq_num)
      (packet :: rest.1, rest.2)
    else ([], seq_num)

/-- RtpPacketizer::packetize_jpeg (mod.rs:120-180).  The stored sequence
number is passed in as seq0 and the value stored back at mod.rs:172 is
returned alongside the packet list. -/
def RtpPacketizer.packetize_jpeg (p : RtpPacketizer) (seq0 : Nat) (jpeg_data : List Nat)
    (width height timestamp : Nat) : Except PacketizerError (List (List Nat) × Nat) :=
  if jpeg_data.isEmpty then .error .EmptyData
  else
    match RtpPacketizer.validate_jpeg jpeg_data with
    | .error e => .error e
    | .ok _ =>
      match extract_jpeg_payload jpeg_data with
      | .error e => .error e
      | .ok (jpeg_info, jpeg_payload) =>
        .ok (p.fragLoop jpeg_info jpeg_payload width height timestamp
          (jpeg_payload.length + 1) 0 0 seq0)

/-- Packet list of a packetize_jpeg result (empty when the call failed). -/
def pktsOf (r : Except PacketizerError (List (List Nat) × Nat)) : List (List Nat) :=
  match r with
  | .ok x => x.1
  | .error _ => []

/-- Stored sequence number after a packetize_jpeg call that started at s0:
the returned value on success, s0 unchanged on failure (the Rust method
returns before the store on every error path). -/
def seqAfter (s0 : Nat) (r : Except PacketizerError (List (List Nat) × Nat)) : Nat :=
  match r with
  | .ok x => x.2
  | .error _ => s0

/-- The 24-bit fragment-offset field of a packet buffer (bytes 13..15 of the
wire format, big-endian). -/
def fragOffOf (pkt : List Nat) : Nat :=
  pkt.getD 13 0 * 65536 + pkt.getD 14 0 * 256 + pkt.getD 15 0

/-- Size of the quantization-table header carried by the i-th packet of a
frame whose parse produced info: 4 + Σ|table| on the first packet when tables
exist, 0 otherwise. -/
def qhdrSize (info : JpegInfo) (i : Nat) : Nat :=
  if i = 0 ∧ ¬ info.q_tables.isEmpty then
    4 + (info.q_tables.map List.length).sum
  else 0

/-- Control-flow mirror of the marker walk of parse_jpeg_for_rtp: walks the
input exactly as parseLoop does and returns true iff some iteration
dispatches the marker `target` in the match (jpeg_parser.rs:89).  Used to
state, independently of the parser's result, the hypothesis "the marker walk
reaches an SOS (or SOF0) marker".  The position updates below are
byte-for-byte those of parseLoop; only the accumulated state is dropped, and
reaching SOS (where the real walk returns) ends the mirror walk. -/
def walkHits (data : List Nat) (target : Nat) : Nat → Nat → Bool
  | 0, _ => false
  | fuel + 1, pos =>
    if pos < data.length - 1 then
      if data.getD pos 0 ≠ 0xFF then walkHits data target fuel (pos + 1)
      else
        let marker := data.getD (pos + 1) 0
        if marker = target then true
        else if marker = 0xD8 then walkHits data target fuel (pos + 2)
        else if marker = 0xD9 then false
        else if marker = 0xDA then false
        else if marker = 0xDB then
          if data.length < pos + 4 then false
          else
            let len2 := be16 (data.getD (pos + 2) 0) (data.getD (pos + 3) 0)
            if data.length < pos + 2 + len2 then false
            else walkHits data target fuel (pos + 2 + len2)
        else if marker = 0xC0 then
          if data.length < pos + 4 then false
          else if data.length < pos + 9 then false
          else walkHits data target fuel
            (pos + 2 + be16 (data.getD (pos + 2) 0) (data.getD (pos + 3) 0))
        else if marker = 0x00 ∨ marker = 0xFF then walkHits data target fuel (pos + 1)
        else
          if data.length < pos + 4 then false
          else walkHits data target fuel
            (pos + 2 + be16 (data.getD (pos + 2) 0) (data.getD (pos + 3) 0))
    else false

/-- Number of packets the fragmentation loop emits for a payload of length
len starting at offset off with chunk size mps: ceil((len - off) / mps). -/
def numPackets (len off mps : Nat) : Nat := (len - off + mps - 1) / mps

/-- Panic-aware variant of parseLoop: identical to it branch for branch,
except that the two inputs on which the Rust loop panics yield none instead
of continuing - a DQT whose declared length is below 2 (the slice
data[pos+2..pos+length] with start > end, jpeg_parser.rs:143, reached after
both bounds checks pass) and a 3-component SOF0 whose sampling byte sits
exactly at the end of the buffer (the data[pos+9] read with pos+9 = len,
jpeg_parser.rs:169).  Every returning path of the Rust loop is some; the
panicking paths are none. -/
def parseLoopP (data : List Nat) : Nat → Nat → List (List Nat) → Nat → Nat → Nat →
    Option (Except JpegParseError JpegInfo)
  | 0, _, q_tables, width, height, jpeg_type =>
    some (.ok (fallbackInfo data q_tables width height jpeg_type))
  | fuel + 1, pos, q_tables, width, height, jpeg_type =>
    if pos < data.length - 1 then
      if data.getD pos 0 ≠ 0xFF then
        parseLoopP data fuel (pos + 1) q_tables width height jpeg_type
      else
        let marker := data.getD (pos + 1) 0
        if marker = 0xD8 then
          parseLoopP data fuel (pos + 2) q_tables width height jpeg_type
        else if marker = 0xD9 then
          some (.ok (fallbackInfo data q_tables width height jpeg_type))
        else if marker = 0xDA then
          if data.length < pos + 4 then some (.error .MissingSos)
          else
            let len2 := be16 (data.getD (pos + 2) 0) (data.getD (pos + 3) 0)
            let scan_start := pos + 2 + len2
            let scan_end := scanEndLoop data (data.length - 1 - scan_start) scan_start
            if data.length - 1 ≤ scan_end then some (.error .MissingEoi)
            else some (.ok { q_tables := q_tables, width := width, height := height,
                             jpeg_type := jpeg_type,
                             scan_data := (data.drop scan_start).take
                               (scan_end - scan_start) })
        else if marker = 0xDB then
          if data.length < pos + 4 then
            some (.ok (fallbackInfo data q_tables width height jpeg_type))
          else
            let len2 := be16 (data.getD (pos + 2) 0) (data.getD (pos + 3) 0)
            if data.length < pos + 2 + len2 then
              some (.ok (fallbackInfo data q_tables width height jpeg_type))
            else if len2 < 2 then none
            else
              parseLoopP data fuel (pos + 2 + len2)
                (q_tables ++ [(data.drop (pos + 4)).take (len2 - 2)])
                width height jpeg_type
        else if marker = 0xC0 then
          if data.length < pos + 4 then
            some (.ok (fallbackInfo data q_tables width height jpeg_type))
          else
            let len2 := be16 (data.getD (pos + 2) 0) (data.getD (pos + 3) 0)
            if data.length < pos + 9 then
              some (.ok (fallbackInfo data q_tables width height jpeg_type))
            else if data.length = pos + 11 ∧ data.getD (pos + 9) 0 = 3 then none
            else
              let height2 := be16 (data.getD (pos + 5) 0) (data.getD (pos + 6) 0)
              let width2 := be16 (data.getD (pos + 7) 0) (data.getD (pos + 8) 0)
              let jpeg_type2 :=
                if pos + 11 ≤ data.length then
                  if data.getD (pos + 9) 0 = 3 then
                    let s := data.getD (pos + 11) 0
                    let y_h := s / 16 % 16
                    let y_v := s % 16
                    if y_h = 2 ∧ y_v = 2 then 0
                    else if y_h = 2 ∧ y_v = 1 then 1
                    else jpeg_type
                  else jpeg_type
                else jpeg_type
              parseLoopP data fuel (pos + 2 + len2) q_tables width2 height2 jpeg_type2
        else if marker = 0x00 ∨ marker = 0xFF then
          parseLoopP data fuel (pos + 1) q_tables width height jpeg_type
        else
          if data.length < pos + 4 then
            some (.ok (fallbackInfo data q_tables width height jpeg_type))
          else
            let len2 := be16 (data.getD (pos + 2) 0) (data.getD (pos + 3) 0)
            parseLoopP data fuel (pos + 2 + len2) q_tables width height jpeg_type
    else some (.ok (fallbackInfo data q_tables width height jpeg_type))

/-- Panic-aware parse_jpeg_for_rtp: some of the code's return value, or none
when the marker walk panics. -/
def parse_jpeg_for_rtpP (data : List Nat) : Option (Except JpegParseError JpegInfo) :=
  if data.length < 4 then some (.error .TooShort)
  else if data.getD 0 0 ≠ 0xFF ∨ data.getD 1 0 ≠ 0xD8 then some (.error .MissingSoi)
  else parseLoopP data data.length 2 [] 0 0 0

deriving instance DecidableEq for Except

/-! General lemmas about the embedded operations. -/

theorem nextSeq_eq (s : Nat) : nextSeq s = (s + 1) % 65536 :=
  Nat.mod_mod_of_dvd (s + 1) (by norm_num)

theorem iterate_nextSeq : ∀ (n s : Nat), s < 65536 → nextSeq^[n] s = (s + n) % 65536
  | 0, s, hs => by simp [Nat.mod_eq_of_lt hs]
  | n + 1, s, hs => by
    rw [Function.iterate_succ_apply,
      iterate_nextSeq n (nextSeq s) (by rw [nextSeq_eq]; exact Nat.mod_lt _ (by norm_num)),
      nextSeq_eq]
    omega

theorem numPackets_le_iff {mps : Nat} (hm : 0 < mps) (len off n : Nat) :
    numPackets len off mps ≤ n ↔ len - off ≤ mps * n := by
  unfold numPackets
  rw [Nat.div_le_iff_le_mul_add_pred hm]
  generalize mps * n = k
  omega

theorem numPackets_eq_zero {mps len off : Nat} (hm : 0 < mps) (h : len ≤ off) :
    numPackets len off mps = 0 := by
  unfold numPackets
  exact Nat.div_eq_of_lt (by omega)

theorem numPackets_succ {mps : Nat} (hm : 0 < mps) {len off : Nat} (hoff : off < len) :
    numPackets len off mps = numPackets len (off + min (len - off) mps) mps + 1 := by
  unfold numPackets
  have h1 : len - off + mps - 1 = (len - off - 1) + mps := by omega
  rw [h1, Nat.add_div_right _ hm]
  rcases le_or_lt mps (len - off) with h | h
  · have h2 : len - (off + min (len - off) mps) + mps - 1 = len - off - 1 := by omega
    rw [h2]
  · have h2 : len - (off + min (len - off) mps) + mps - 1 = mps - 1 := by omega
    rw [h2, Nat.div_eq_of_lt (by omega), Nat.div_eq_of_lt (by omega)]

theorem fragLoop_eq (p : RtpPacketizer) (info : Option JpegInfo) (pl : List Nat)
    (w h ts : Nat) (hm : 0 < p.max_payload_size) :
    ∀ (fuel off fo s : Nat), pl.length - off < fuel →
      p.fragLoop info pl w h ts fuel off fo s =
        (List.ofFn (fun i : Fin (numPackets pl.length off p.max_payload_size) =>
            p.build_rtp_packet info (nextSeq^[(i : Nat)] s) ts
              (fo + (i : Nat) * p.max_payload_size) w h
              (decide (pl.length ≤ off + ((i : Nat) + 1) * p.max_payload_size))
              ((pl.drop (off + (i : Nat) * p.max_payload_size)).take p.max_payload_size)),
          nextSeq^[numPackets pl.length off p.max_payload_size] s)
  | 0, off, fo, s, hf => absurd hf (by omega)
  | fuel + 1, off, fo, s, hf => by
    by_cases hoff : off < pl.length
    · have hps1 : 1 ≤ min (pl.length - off) p.max_payload_size := by omega
      have ih := fragLoop_eq p info pl w h ts hm fuel
        (off + min (pl.length - off) p.max_payload_size)
        (fo + min (pl.length - off) p.max_payload_size) (nextSeq s) (by omega)
      have hK := numPackets_succ hm hoff
      simp only [RtpPacketizer.fragLoop, if_pos hoff]
      rw [ih, hK, List.ofFn_succ]
      dsimp only
      simp only [Prod.mk.injEq]
      refine ⟨?_, (Function.iterate_succ_apply nextSeq _ s).symm⟩
      simp only [List.cons.injEq]
      constructor
      · simp only [Fin.val_zero, Function.iterate_zero_apply, Nat.zero_mul, Nat.add_zero,
          Nat.zero_add, Nat.one_mul]
        have harg1 : decide (pl.length ≤ off + min (pl.length - off) p.max_payload_size)
            = decide (pl.length ≤ off + p.max_payload_size) := decide_eq_decide.mpr (by omega)
        have harg2 : (pl.drop off).take (min (pl.length - off) p.max_payload_size)
            = (pl.drop off).take p.max_payload_size :=
          List.take_eq_take.mpr (by simp only [List.length_drop]; omega)
        rw [harg1, harg2]
      · refine congrArg List.ofFn (funext fun i => ?_)
        obtain ⟨j, hj⟩ := i
        have hps : min (pl.length - off) p.max_payload_size = p.max_payload_size := by
          have hlt : off + min (pl.length - off) p.max_payload_size < pl.length := by
            by_contra hcon
            have := numPackets_eq_zero hm (le_of_not_lt hcon)
            omega
          omega
        simp only [Fin.succ_mk, Fin.val_mk]
        simp only [hps]
        simp only [Function.iterate_succ_apply]
        have e1 : ∀ (a j : Nat), a + p.max_payload_size + j * p.max_payload_size
            = a + (j + 1) * p.max_payload_size := by intro a j; ring
        rw [e1 fo j, e1 off j, e1 off (j + 1)]
    · simp only [RtpPacketizer.fragLoop, if_neg hoff]
      have h0 : numPackets pl.length off p.max_payload_size = 0 :=
        numPackets_eq_zero hm (by omega)
      rw [h0]
      simp [List.ofFn_zero]

theorem scanEndLoop_spec (data : List Nat) :
    ∀ (fuel e : Nat), data.length - 1 - e ≤ fuel →
      e ≤ scanEndLoop data fuel e ∧
      (scanEndLoop data fuel e < data.length - 1 →
        (data.getD (scanEndLoop data fuel e) 0 = 0xFF ∧
         data.getD (scanEndLoop data fuel e + 1) 0 = 0xD9) ∧
        ∀ j, e ≤ j → j < scanEndLoop data fuel e →
          ¬(data.getD j 0 = 0xFF ∧ data.getD (j + 1) 0 = 0xD9))
  | 0, e, hf => by
    simp only [scanEndLoop]
    exact ⟨le_refl e, fun hc => absurd hc (by omega)⟩
  | fuel + 1, e, hf => by
    simp only [scanEndLoop]
    by_cases h1 : e < data.length - 1
    · rw [if_pos h1]
      by_cases h2 : data.getD e 0 = 0xFF ∧ data.getD (e + 1) 0 = 0xD9
      · rw [if_pos h2]
        exact ⟨le_refl e, fun _ => ⟨h2, fun j hj1 hj2 => by omega⟩⟩
      · rw [if_neg h2]
        have IH := scanEndLoop_spec data fuel (e + 1) (by omega)
        refine ⟨by omega, fun hlt => ⟨(IH.2 hlt).1, fun j hj1 hj2 => ?_⟩⟩
        rcases Nat.eq_or_lt_of_le hj1 with rfl | hj
        · exact h2
        · exact (IH.2 hlt).2 j (by omega) hj2
    · rw [if_neg h1]
      exact ⟨le_refl e, fun hc => absurd hc h1⟩

theorem ofFn_getD {α : Type} {n : Nat} (f : Fin n → α) (i : Nat) (d : α) (h : i < n) :
    (List.ofFn f).getD i d = f ⟨i, h⟩ := by
  rw [List.getD_eq_getElem?_getD, List.getElem?_eq_getElem (by simpa using h)]
  simp [List.getElem_ofFn]

theorem join_chunks {mps : Nat} (hm : 0 < mps) :
    ∀ (n : Nat) (l : List Nat), l.length ≤ n →
      (List.ofFn (fun i : Fin (numPackets l.length 0 mps) =>
        (l.drop ((i : Nat) * mps)).take mps)).flatten = l
  | 0, l, hl => by
    have h0 : l = [] := List.eq_nil_of_length_eq_zero (by omega)
    subst h0
    have hz : numPackets ([] : List Nat).length 0 mps = 0 := numPackets_eq_zero hm (by simp)
    rw [hz]
    simp
  | n + 1, l, hl => by
    rcases Nat.eq_zero_or_pos l.length with hz | hpos
    · have h0 : l = [] := List.eq_nil_of_length_eq_zero hz
      subst h0
      have hz2 : numPackets ([] : List Nat).length 0 mps = 0 := numPackets_eq_zero hm (by simp)
      rw [hz2]
      simp
    · have hK := numPackets_succ hm (show (0 : Nat) < l.length from hpos)
      simp only [Nat.zero_add, Nat.sub_zero] at hK
      have hKK : numPackets l.length (min l.length mps) mps
          = numPackets (l.drop mps).length 0 mps := by
        simp only [numPackets, List.length_drop, Nat.sub_zero]
        congr 1
        omega
      rw [hKK] at hK
      rw [hK, List.ofFn_succ]
      have hhead : (l.drop (((0 : Fin (numPackets (l.drop mps).length 0 mps + 1)) : Nat)
          * mps)).take mps = l.take mps := by
        simp
      rw [hhead]
      have htail : (fun i : Fin (numPackets (l.drop mps).length 0 mps) =>
            (l.drop (((i.succ : Fin (numPackets (l.drop mps).length 0 mps + 1)) : Nat)
              * mps)).take mps)
          = (fun i : Fin (numPackets (l.drop mps).length 0 mps) =>
            ((l.drop mps).drop ((i : Nat) * mps)).take mps) := by
        funext i
        rw [List.drop_drop]
        congr 2
        simp [Fin.val_succ]
        ring
      rw [htail, List.flatten_cons,
        join_chunks hm n (l.drop mps) (by simp only [List.length_drop]; omega)]
      exact List.take_append_drop mps l

theorem packetize_ok_shape {p : RtpPacketizer} {s0 : Nat} {jpeg : List Nat}
    {w h ts : Nat} {r : List (List Nat) × Nat}
    (hok : p.packetize_jpeg s0 jpeg w h ts = .ok r) :
    ∃ info pl, extract_jpeg_payload jpeg = .ok (info, pl) ∧
      r = p.fragLoop info pl w h ts (pl.length + 1) 0 0 s0 := by
  unfold RtpPacketizer.packetize_jpeg at hok
  split at hok
  · cases hok
  · split at hok
    · cases hok
    · split at hok
      · cases hok
      · rename_i info pl heq
        exact ⟨info, pl, heq, by injection hok with h2; exact h2.symm⟩

/-! Byte-level facts about build_rtp_packet: the first 20 bytes of every
packet are the RTP and JPEG headers, independent of the quantization-table
header and payload that follow. -/

theorem build_getD_0 (p : RtpPacketizer) (info : Option JpegInfo)
    (seq ts fo w h : Nat) (m : Bool) (pl : List Nat) :
    (p.build_rtp_packet info seq ts fo w h m pl).getD 0 0 = 0x80 := rfl

theorem build_getD_1 (p : RtpPacketizer) (info : Option JpegInfo)
    (seq ts fo w h : Nat) (m : Bool) (pl : List Nat) :
    (p.build_rtp_packet info seq ts fo w h m pl).getD 1 0 =
      if m then 0x80 ||| p.payload_type else p.payload_type := rfl

theorem build_getD_2 (p : RtpPacketizer) (info : Option JpegInfo)
    (seq ts fo w h : Nat) (m : Bool) (pl : List Nat) :
    (p.build_rtp_packet info seq ts fo w h m pl).getD 2 0 = seq % 65536 / 256 := rfl

theorem build_getD_3 (p : RtpPacketizer) (info : Option JpegInfo)
    (seq ts fo w h : Nat) (m : Bool) (pl : List Nat) :
    (p.build_rtp_packet info seq ts fo w h m pl).getD 3 0 = seq % 65536 % 256 := rfl

theorem build_getD_4 (p : RtpPacketizer) (info : Option JpegInfo)
    (seq ts fo w h : Nat) (m : Bool) (pl : List Nat) :
    (p.build_rtp_packet info seq ts fo w h m pl).getD 4 0 = ts / 16777216 % 256 := rfl

theorem build_getD_5 (p : RtpPacketizer) (info : Option JpegInfo)
    (seq ts fo w h : Nat) (m : Bool) (pl : List Nat) :
    (p.build_rtp_packet info seq ts fo w h m pl).getD 5 0 = ts / 65536 % 256 := rfl

theorem build_getD_6 (p : RtpPacketizer) (info : Option JpegInfo)
    (seq ts fo w h : Nat) (m : Bool) (pl : List Nat) :
    (p.build_rtp_packet info seq ts fo w h m pl).getD 6 0 = ts / 256 % 256 := rfl

theorem build_getD_7 (p : RtpPacketizer) (info : Option JpegInfo)
    (seq ts fo w h : Nat) (m : Bool) (pl : List Nat) :
    (p.build_rtp_packet info seq ts fo w h m pl).getD 7 0 = ts % 256 := rfl

theorem build_getD_8 (p : RtpPacketizer) (info : Option JpegInfo)
    (seq ts fo w h : Nat) (m : Bool) (pl : List Nat) :
    (p.build_rtp_packet info seq ts fo w h m pl).getD 8 0 = p.ssrc / 16777216 % 256 := rfl

theorem build_getD_9 (p : RtpPacketizer) (info : Option JpegInfo)
    (seq ts fo w h : Nat) (m : Bool) (pl : List Nat) :
    (p.build_rtp_packet info seq ts fo w h m pl).getD 9 0 = p.ssrc / 65536 % 256 := rfl

theorem build_getD_10 (p : RtpPacketizer) (info : Option JpegInfo)
    (seq ts fo w h : Nat) (m : Bool) (pl : List Nat) :
    (p.build_rtp_packet info seq ts fo w h m pl).getD 10 0 = p.ssrc / 256 % 256 := rfl

theorem build_getD_11 (p : RtpPacketizer) (info : Option JpegInfo)
    (seq ts fo w h : Nat) (m : Bool) (pl : List Nat) :
    (p.build_rtp_packet info seq ts fo w h m pl).getD 11 0 = p.ssrc % 256 := rfl

theorem build_getD_13 (p : RtpPacketizer) (info : Option JpegInfo)
    (seq ts fo w h : Nat) (m : Bool) (pl : List Nat) :
    (p.build_rtp_packet info seq ts fo w h m pl).getD 13 0 = fo / 65536 % 256 := rfl

theorem build_getD_14 (p : RtpPacketizer) (info : Option JpegInfo)
    (seq ts fo w h : Nat) (m : Bool) (pl : List Nat) :
    (p.build_rtp_packet info seq ts fo w h m pl).getD 14 0 = fo / 256 % 256 := rfl

theorem build_getD_15 (p : RtpPacketizer) (info : Option JpegInfo)
    (seq ts fo w h : Nat) (m : Bool) (pl : List Nat) :
    (p.build_rtp_packet info seq ts fo w h m pl).getD 15 0 = fo % 256 := rfl

theorem build_getD_17 (p : RtpPacketizer) (info : Option JpegInfo)
    (seq ts fo w h : Nat) (m : Bool) (pl : List Nat) :
    (p.build_rtp_packet info seq ts fo w h m pl).getD 17 0 =
      if ((fo == 0) && info.isSome) = true then 128 else 255 := rfl

theorem build_getD_18 (p : RtpPacketizer) (info : Option JpegInfo)
    (seq ts fo w h : Nat) (m : Bool) (pl : List Nat) :
    (p.build_rtp_packet info seq ts fo w h m pl).getD 18 0 = w / 8 % 256 := rfl

theorem build_getD_19 (p : RtpPacketizer) (info : Option JpegInfo)
    (seq ts fo w h : Nat) (m : Bool) (pl : List Nat) :
    (p.build_rtp_packet info seq ts fo w h m pl).getD 19 0 = h / 8 % 256 := rfl

theorem build_drop20_none (p : RtpPacketizer)
    (seq ts fo w h : Nat) (m : Bool) (pl : List Nat) :
    (p.build_rtp_packet none seq ts fo w h m pl).drop 20 = pl := by
  unfold RtpPacketizer.build_rtp_packet
  cases hfo : (fo == 0) <;> simp

theorem build_fragOffOf (p : RtpPacketizer) (info : Option JpegInfo)
    (seq ts fo w h : Nat) (m : Bool) (pl : List Nat) (hfo : fo < 16777216) :
    fragOffOf (p.build_rtp_packet info seq ts fo w h m pl) = fo := by
  unfold fragOffOf
  rw [build_getD_13, build_getD_14, build_getD_15]
  omega

theorem parseLoop_noSos (data : List Nat) :
    ∀ (fuel pos : Nat) (q : List (List Nat)) (w h t : Nat),
      walkHits data 0xDA fuel pos = false →
      ∃ q2 w2 h2 t2, parseLoop data fuel pos q w h t = .ok (fallbackInfo data q2 w2 h2 t2)
  | 0, pos, q, w, h, t, _ => ⟨q, w, h, t, rfl⟩
  | fuel + 1, pos, q, w, h, t, hw => by
    simp only [walkHits] at hw
    simp only [parseLoop]
    by_cases h1 : pos < data.length - 1
    case neg =>
      rw [if_neg h1]
      exact ⟨q, w, h, t, rfl⟩
    rw [if_pos h1] at hw ⊢
    by_cases h2 : data.getD pos 0 ≠ 0xFF
    case pos =>
      rw [if_pos h2] at hw ⊢
      exact parseLoop_noSos data fuel (pos + 1) q w h t hw
    rw [if_neg h2] at hw ⊢
    by_cases h3 : data.getD (pos + 1) 0 = 0xDA
    case pos => rw [if_pos h3] at hw; cases hw
    rw [if_neg h3] at hw
    by_cases h4 : data.getD (pos + 1) 0 = 0xD8
    case pos =>
      rw [if_pos h4] at hw ⊢
      exact parseLoop_noSos data fuel (pos + 2) q w h t hw
    rw [if_neg h4] at hw ⊢
    by_cases h5 : data.getD (pos + 1) 0 = 0xD9
    case pos =>
      rw [if_pos h5]
      exact ⟨q, w, h, t, rfl⟩
    rw [if_neg h5] at hw ⊢
    rw [if_neg h3] at hw ⊢
    by_cases h6 : data.getD (pos + 1) 0 = 0xDB
    case pos =>
      rw [if_pos h6] at hw ⊢
      by_cases h7 : data.length < pos + 4
      case pos =>
        rw [if_pos h7]
        exact ⟨q, w, h, t, rfl⟩
      rw [if_neg h7] at hw ⊢
      by_cases h8 : data.length < pos + 2 + be16 (data.getD (pos + 2) 0) (data.getD (pos + 3) 0)
      case pos =>
        rw [if_pos h8]
        exact ⟨q, w, h, t, rfl⟩
      rw [if_neg h8] at hw ⊢
      exact parseLoop_noSos data fuel _ _ w h t hw
    rw [if_neg h6] at hw ⊢
    by_cases h9 : data.getD (pos + 1) 0 = 0xC0
    case pos =>
      rw [if_pos h9] at hw ⊢
      by_cases h10 : data.length < pos + 4
      case pos =>
        rw [if_pos h10]
        exact ⟨q, w, h, t, rfl⟩
      rw [if_neg h10] at hw ⊢
      by_cases h11 : data.length < pos + 9
      case pos =>
        rw [if_pos h11]
        exact ⟨q, w, h, t, rfl⟩
      rw [if_neg h11] at hw ⊢
      exact parseLoop_noSos data fuel _ q _ _ _ hw
    rw [if_neg h9] at hw ⊢
    by_cases h12 : data.getD (pos + 1) 0 = 0x00 ∨ data.getD (pos + 1) 0 = 0xFF
    case pos =>
      rw [if_pos h12] at hw ⊢
      exact parseLoop_noSos data fuel (pos + 1) q w h t hw
    rw [if_neg h12] at hw ⊢
    by_cases h13 : data.length < pos + 4
    case pos =>
      rw [if_pos h13]
      exact ⟨q, w, h, t, rfl⟩
    rw [if_neg h13] at hw ⊢
    exact parseLoop_noSos data fuel _ q w h t hw

theorem parseLoop_noSos_noSof0 (data : List Nat) :
    ∀ (fuel pos : Nat) (q : List (List Nat)) (w h t : Nat),
      walkHits data 0xDA fuel pos = false →
      walkHits data 0xC0 fuel pos = false →
      ∃ q2 t2, parseLoop data fuel pos q w h t = .ok (fallbackInfo data q2 w h t2)
  | 0, pos, q, w, h, t, _, _ => ⟨q, t, rfl⟩
  | fuel + 1, pos, q, w, h, t, hw1, hw2 => by
    simp only [walkHits] at hw1 hw2
    simp only [parseLoop]
    by_cases h1 : pos < data.length - 1
    case neg =>
      rw [if_neg h1]
      exact ⟨q, t, rfl⟩
    rw [if_pos h1] at hw1 hw2 ⊢
    by_cases h2 : data.getD pos 0 ≠ 0xFF
    case pos =>
      rw [if_pos h2] at hw1 hw2 ⊢
      exact parseLoop_noSos_noSof0 data fuel (pos + 1) q w h t hw1 hw2
    rw [if_neg h2] at hw1 hw2 ⊢
    by_cases h3 : data.getD (pos + 1) 0 = 0xDA
    case pos => rw [if_pos h3] at hw1; cases hw1
    by_cases h9 : data.getD (pos + 1) 0 = 0xC0
    case pos => rw [if_pos h9] at hw2; cases hw2
    rw [if_neg h3] at hw1
    rw [if_neg h9] at hw2
    by_cases h4 : data.getD (pos + 1) 0 = 0xD8
    case pos =>
      rw [if_pos h4] at hw1 hw2 ⊢
      exact parseLoop_noSos_noSof0 data fuel (pos + 2) q w h t hw1 hw2
    rw [if_neg h4] at hw1 hw2 ⊢
    by_cases h5 : data.getD (pos + 1) 0 = 0xD9
    case pos =>
      rw [if_pos h5]
      exact ⟨q, t, rfl⟩
    rw [if_neg h5] at hw1 hw2 ⊢
    rw [if_neg h3] at hw1 hw2 ⊢
    by_cases h6 : data.getD (pos + 1) 0 = 0xDB
    case pos =>
      rw [if_pos h6] at hw1 hw2 ⊢
      by_cases h7 : data.length < pos + 4
      case pos =>
        rw [if_pos h7]
        exact ⟨q, t, rfl⟩
      rw [if_neg h7] at hw1 hw2 ⊢
      by_cases h8 : data.length < pos + 2 + be16 (data.getD (pos + 2) 0) (data.getD (pos + 3) 0)
      case pos =>
        rw [if_pos h8]
        exact ⟨q, t, rfl⟩
      rw [if_neg h8] at hw1 hw2 ⊢
      exact parseLoop_noSos_noSof0 data fuel _ _ w h t hw1 hw2
    rw [if_neg h6] at hw1 hw2 ⊢
    rw [if_neg h9] at hw1 hw2 ⊢
    by_cases h12 : data.getD (pos + 1) 0 = 0x00 ∨ data.getD (pos + 1) 0 = 0xFF
    case pos =>
      rw [if_pos h12] at hw1 hw2 ⊢
      exact parseLoop_noSos_noSof0 data fuel (pos + 1) q w h t hw1 hw2
    rw [if_neg h12] at hw1 hw2 ⊢
    by_cases h13 : data.length < pos + 4
    case pos =>
      rw [if_pos h13]
      exact ⟨q, t, rfl⟩
    rw [if_neg h13] at hw1 hw2 ⊢
    exact parseLoop_noSos_noSof0 data fuel _ q w h t hw1 hw2

theorem parseLoop_sos (data : List Nat) :
    ∀ (fuel pos : Nat) (q : List (List Nat)) (w h t : Nat) (info : JpegInfo),
      parseLoop data fuel pos q w h t = .ok info →
      walkHits data 0xDA fuel pos = true →
      ∃ sp ss se,
        data.getD sp 0 = 0xFF ∧ data.getD (sp + 1) 0 = 0xDA ∧
        ss = sp + 2 + be16 (data.getD (sp + 2) 0) (data.getD (sp + 3) 0) ∧
        ss ≤ se ∧ se < data.length - 1 ∧
        data.getD se 0 = 0xFF ∧ data.getD (se + 1) 0 = 0xD9 ∧
        (∀ j, ss ≤ j → j < se → ¬(data.getD j 0 = 0xFF ∧ data.getD (j + 1) 0 = 0xD9)) ∧
        info.scan_data = (data.drop ss).take (se - ss)
  | 0, pos, q, w, h, t, info, _, hw => by cases hw
  | fuel + 1, pos, q, w, h, t, info, hok, hw => by
    simp only [walkHits] at hw
    simp only [parseLoop] at hok
    by_cases h1 : pos < data.length - 1
    case neg => rw [if_neg h1] at hw; cases hw
    rw [if_pos h1] at hw hok
    by_cases h2 : data.getD pos 0 ≠ 0xFF
    case pos =>
      rw [if_pos h2] at hw hok
      exact parseLoop_sos data fuel (pos + 1) q w h t info hok hw
    rw [if_neg h2] at hw hok
    by_cases h3 : data.getD (pos + 1) 0 = 0xDA
    case pos =>
      -- the SOS branch: parseLoop returned from inside it
      have hne8 : ¬ data.getD (pos + 1) 0 = 0xD8 := by rw [h3]; decide
      have hne9 : ¬ data.getD (pos + 1) 0 = 0xD9 := by rw [h3]; decide
      rw [if_neg hne8, if_neg hne9, if_pos h3] at hok
      by_cases h4 : data.length < pos + 4
      case pos => rw [if_pos h4] at hok; cases hok
      rw [if_neg h4] at hok
      by_cases h5 : data.length - 1 ≤
          scanEndLoop data
            (data.length - 1 - (pos + 2 + be16 (data.getD (pos + 2) 0) (data.getD (pos + 3) 0)))
            (pos + 2 + be16 (data.getD (pos + 2) 0) (data.getD (pos + 3) 0))
      case pos => rw [if_pos h5] at hok; cases hok
      rw [if_neg h5] at hok
      injection hok with hok
      subst hok
      refine ⟨pos, pos + 2 + be16 (data.getD (pos + 2) 0) (data.getD (pos + 3) 0),
        scanEndLoop data
          (data.length - 1 - (pos + 2 + be16 (data.getD (pos + 2) 0) (data.getD (pos + 3) 0)))
          (pos + 2 + be16 (data.getD (pos + 2) 0) (data.getD (pos + 3) 0)),
        not_not.mp h2, h3, rfl, ?_, by omega, ?_, ?_, ?_, rfl⟩
      · exact (scanEndLoop_spec data _ _ (le_refl _)).1
      · exact ((scanEndLoop_spec data _ _ (le_refl _)).2 (by omega)).1.1
      · exact ((scanEndLoop_spec data _ _ (le_refl _)).2 (by omega)).1.2
      · exact ((scanEndLoop_spec data _ _ (le_refl _)).2 (by omega)).2
    rw [if_neg h3] at hw
    by_cases h4 : data.getD (pos + 1) 0 = 0xD8
    case pos =>
      rw [if_pos h4] at hw hok
      exact parseLoop_sos data fuel (pos + 2) q w h t info hok hw
    rw [if_neg h4] at hw hok
    by_cases h5 : data.getD (pos + 1) 0 = 0xD9
    case pos => rw [if_pos h5] at hw; cases hw
    rw [if_neg h5] at hw hok
    rw [if_neg h3] at hw hok
    by_cases h6 : data.getD (pos + 1) 0 = 0xDB
    case pos =>
      rw [if_pos h6] at hw hok
      by_cases h7 : data.length < pos + 4
      case pos => rw [if_pos h7] at hw; cases hw
      rw [if_neg h7] at hw hok
      by_cases h8 : data.length < pos + 2 + be16 (data.getD (pos + 2) 0) (data.getD (pos + 3) 0)
      case pos => rw [if_pos h8] at hw; cases hw
      rw [if_neg h8] at hw hok
      exact parseLoop_sos data fuel _ _ w h t info hok hw
    rw [if_neg h6] at hw hok
    by_cases h9 : data.getD (pos + 1) 0 = 0xC0
    case pos =>
      rw [if_pos h9] at hw hok
      by_cases h10 : data.length < pos + 4
      case pos => rw [if_pos h10] at hw; cases hw
      rw [if_neg h10] at hw hok
      by_cases h11 : data.length < pos + 9
      case pos => rw [if_pos h11] at hw; cases hw
      rw [if_neg h11] at hw hok
      exact parseLoop_sos data fuel _ q _ _ _ info hok hw
    rw [if_neg h9] at hw hok
    by_cases h12 : data.getD (pos + 1) 0 = 0x00 ∨ data.getD (pos + 1) 0 = 0xFF
    case pos =>
      rw [if_pos h12] at hw hok
      exact parseLoop_sos data fuel (pos + 1) q w h t info hok hw
    rw [if_neg h12] at hw hok
    by_cases h13 : data.length < pos + 4
    case pos => rw [if_pos h13] at hw; cases hw
    rw [if_neg h13] at hw hok
    exact parseLoop_sos data fuel _ q w h t info hok hw

theorem new_mps_pos (ssrc mtu : Nat) : 0 < (RtpPacketizer.new ssrc mtu).max_payload_size := by
  unfold RtpPacketizer.new
  dsimp only
  omega

theorem new_payload_type (ssrc mtu : Nat) : (RtpPacketizer.new ssrc mtu).payload_type = 26 := rfl

theorem new_ssrc (ssrc mtu : Nat) : (RtpPacketizer.new ssrc mtu).ssrc = ssrc := rfl

theorem validate_method_ok {jpeg : List Nat} (h4 : 4 ≤ jpeg.length)
    (h0 : jpeg.getD 0 0 = 0xFF) (h1 : jpeg.getD 1 0 = 0xD8)
    (h2 : jpeg.getD (jpeg.length - 2) 0 = 0xFF) (h3 : jpeg.getD (jpeg.length - 1) 0 = 0xD9) :
    RtpPacketizer.validate_jpeg jpeg = .ok () := by
  unfold RtpPacketizer.validate_jpeg
  rw [if_neg (by omega), if_neg (by simp only [h0, h1]; decide),
    if_neg (by simp only [h2, h3]; decide)]

theorem validate_free_ok {jpeg : List Nat} (h4 : 4 ≤ jpeg.length)
    (h0 : jpeg.getD 0 0 = 0xFF) (h1 : jpeg.getD 1 0 = 0xD8)
    (h2 : jpeg.getD (jpeg.length - 2) 0 = 0xFF) (h3 : jpeg.getD (jpeg.length - 1) 0 = 0xD9) :
    validate_jpeg jpeg = .ok () := by
  unfold validate_jpeg
  rw [if_neg (by omega), if_neg (by simp only [h0, h1]; decide),
    if_neg (by simp only [h2, h3]; decide)]

theorem extract_ok_parse {jpeg : List Nat} {info : JpegInfo}
    (hp : parse_jpeg_for_rtp jpeg = .ok info) :
    extract_jpeg_payload jpeg = .ok (some info, info.scan_data) := by
  unfold extract_jpeg_payload
  rw [hp]

theorem extract_ok_fallback {jpeg : List Nat} {e : JpegParseError}
    (hp : parse_jpeg_for_rtp jpeg = .error e)
    (hv : validate_jpeg jpeg = .ok ()) :
    extract_jpeg_payload jpeg = .ok (none, jpeg) := by
  unfold extract_jpeg_payload
  rw [hp, hv]

theorem packetize_unfold_ok {p : RtpPacketizer} {s0 : Nat} {jpeg : List Nat}
    {w h ts : Nat} {info : Option JpegInfo} {pl : List Nat}
    (hne : jpeg ≠ [])
    (hv : RtpPacketizer.validate_jpeg jpeg = .ok ())
    (he : extract_jpeg_payload jpeg = .ok (info, pl)) :
    p.packetize_jpeg s0 jpeg w h ts
      = .ok (p.fragLoop info pl w h ts (pl.length + 1) 0 0 s0) := by
  unfold RtpPacketizer.packetize_jpeg
  have hemp : jpeg.isEmpty = false := by
    cases jpeg with
    | nil => exact absurd rfl hne
    | cons a l => rfl
  rw [hemp, hv, he]
  rfl

theorem packetize_new_ok {ssrc mtu s0 : Nat} {jpeg : List Nat} {w h ts : Nat}
    {r : List (List Nat) × Nat}
    (hok : (RtpPacketizer.new ssrc mtu).packetize_jpeg s0 jpeg w h ts = .ok r) :
    ∃ info pl, extract_jpeg_payload jpeg = .ok (info, pl) ∧
      r = (List.ofFn
          (fun i : Fin (numPackets pl.length 0 (RtpPacketizer.new ssrc mtu).max_payload_size) =>
            (RtpPacketizer.new ssrc mtu).build_rtp_packet info (nextSeq^[(i : Nat)] s0) ts
              (0 + (i : Nat) * (RtpPacketizer.new ssrc mtu).max_payload_size) w h
              (decide (pl.length ≤
                0 + ((i : Nat) + 1) * (RtpPacketizer.new ssrc mtu).max_payload_size))
              ((pl.drop (0 + (i : Nat) * (RtpPacketizer.new ssrc mtu).max_payload_size)).take
                (RtpPacketizer.new ssrc mtu).max_payload_size)),
        nextSeq^[numPackets pl.length 0 (RtpPacketizer.new ssrc mtu).max_payload_size] s0) := by
  obtain ⟨info, pl, he, hr⟩ := packetize_ok_shape hok
  refine ⟨info, pl, he, ?_⟩
  rw [hr, fragLoop_eq _ _ _ _ _ _ (new_mps_pos ssrc mtu) (pl.length + 1) 0 0 s0 (by omega)]

theorem validate_method_error_cases {jpeg : List Nat} {e : PacketizerError}
    (h : RtpPacketizer.validate_jpeg jpeg = .error e) :
    e = .MissingSoiMarker ∨ e = .MissingEoiMarker := by
  unfold RtpPacketizer.validate_jpeg at h
  split at h
  · left; injection h with h2; exact h2.symm
  · split at h
    · left; injection h with h2; exact h2.symm
    · split at h
      · right; injection h with h2; exact h2.symm
      · cases h

theorem extract_error_cases {jpeg : List Nat} {e : PacketizerError}
    (h : extract_jpeg_payload jpeg = .error e) :
    ∃ e2, e = .InvalidJpeg e2 := by
  unfold extract_jpeg_payload at h
  split at h
  · cases h
  · split at h
    · exact ⟨_, by injection h with h2; exact h2.symm⟩
    · cases h

/-! Concrete inputs used by the per-claim evaluations and witnesses. -/

/-- The minimal grayscale 640x480 JPEG built by the repository's own test
create_minimal_jpeg (jpeg_parser.rs:253-287): SOI, SOF0, SOS, four scan
bytes, EOI. -/
def mjJpeg : List Nat :=
  [0xFF, 0xD8,
   0xFF, 0xC0, 0x00, 0x0B, 0x08, 0x01, 0xE0, 0x02, 0x80, 0x01, 0x01, 0x11, 0x00,
   0xFF, 0xDA, 0x00, 0x08, 0x01, 0x01, 0x00, 0x00, 0x3F, 0x00,
   0x01, 0x02, 0x03, 0x04,
   0xFF, 0xD9]

/-- A JPEG with one DQT (a four-byte table) and twelve scan bytes; its parse
succeeds with q_tables = [[0x11,0x22,0x33,0x44]]. -/
def c1Jpeg : List Nat :=
  [0xFF, 0xD8, 0xFF, 0xDB, 0x00, 0x06, 0x11, 0x22, 0x33, 0x44,
   0xFF, 0xDA, 0x00, 0x02,
   1, 2, 3, 4, 5, 6, 7, 8, 9, 10, 11, 12,
   0xFF, 0xD9]

/-- SOI and EOI present, but the DQT length bytes are the EOI marker itself
(65497), so the declared table overruns the buffer. -/
def c2DqtJpeg : List Nat := [0xFF, 0xD8, 0xFF, 0xDB, 0xFF, 0xD9]

/-- SOI and EOI present, but the SOS length bytes are the EOI marker itself,
so the scan start lands past the end and the parse fails with MissingEoi. -/
def c2ErrJpeg : List Nat := [0xFF, 0xD8, 0xFF, 0xDA, 0xFF, 0xD9]

/-- A JPEG whose scan data contains an embedded 0xFF 0xD9 pair (index 7)
before the final EOI (index 11). -/
def c3Jpeg : List Nat :=
  [0xFF, 0xD8, 0xFF, 0xDA, 0x00, 0x02, 0xAA, 0xFF, 0xD9, 0xBB, 0xCC, 0xFF, 0xD9]

/-- C1.  The code computes every fragment as min(remaining, mtu - 20) bytes
and then prepends the Q-table header to the first packet on top of that, so
with MTU 30 (max_payload_size 10) and a parsed frame carrying a 4-byte
quantization table, the first packet is 12 + 8 + (4 + 4) + 10 = 38 bytes,
exceeding the 30-byte MTU; the spec requires the first packet's usable
payload to be reduced by the Q-table header so that no packet exceeds the
MTU. -/
theorem c1_mtu_exceeded :
    (RtpPacketizer.new 1 30).mtu = 30 ∧
    (RtpPacketizer.new 1 30).max_payload_size = 10 ∧
    parse_jpeg_for_rtp c1Jpeg = .ok
      { q_tables := [[0x11, 0x22, 0x33, 0x44]], width := 0, height := 0,
        jpeg_type := 0, scan_data := [1, 2, 3, 4, 5, 6, 7, 8, 9, 10, 11, 12] } ∧
    ((pktsOf ((RtpPacketizer.new 1 30).packetize_jpeg 0 c1Jpeg 16 16 0)).getD 0 []).length
      = 38 ∧
    (RtpPacketizer.new 1 30).mtu < 38 := by decide

/-- C8 counterexample: the two-byte input 0xFF 0xD8 begins with SOI and does
not end with EOI, so the claim predicts the missing-EOI error; the method
validate_jpeg (mod.rs:277-279) returns MissingSoiMarker for every input
shorter than 4 bytes, so packetize_jpeg returns MissingSoiMarker instead. -/
theorem c8_counterexample :
    (RtpPacketizer.new 1 1400).packetize_jpeg 0 [0xFF, 0xD8] 640 480 0
      = .error .MissingSoiMarker ∧
    PacketizerError.MissingSoiMarker ≠ PacketizerError.MissingEoiMarker := by decide

theorem validate_method_missing_soi {jpeg : List Nat}
    (h : jpeg.length < 4 ∨ jpeg.getD 0 0 ≠ 0xFF ∨ jpeg.getD 1 0 ≠ 0xD8) :
    RtpPacketizer.validate_jpeg jpeg = .error .MissingSoiMarker := by
  unfold RtpPacketizer.validate_jpeg
  rcases Nat.lt_or_ge jpeg.length 4 with h4 | h4
  · rw [if_pos h4]
  · rw [if_neg (by omega),
      if_pos (by rcases h with hlt | hrest
                 exacts [absurd hlt (by omega), hrest])]

theorem validate_method_missing_eoi {jpeg : List Nat}
    (h4 : 4 ≤ jpeg.length) (h0 : jpeg.getD 0 0 = 0xFF) (h1 : jpeg.getD 1 0 = 0xD8)
    (he : jpeg.getD (jpeg.length - 2) 0 ≠ 0xFF ∨ jpeg.getD (jpeg.length - 1) 0 ≠ 0xD9) :
    RtpPacketizer.validate_jpeg jpeg = .error .MissingEoiMarker := by
  unfold RtpPacketizer.validate_jpeg
  rw [if_neg (by omega), if_neg (by simp only [h0, h1]; decide), if_pos he]

/-- C8 amended: empty input gives EmptyData; a nonempty input that is shorter
than 4 bytes or does not begin with 0xFF 0xD8 gives MissingSoiMarker (so
2- and 3-byte inputs starting with SOI get the missing-SOI error, not the
missing-EOI error the claim predicts); an input of length at least 4 that
begins with 0xFF 0xD8 and does not end with 0xFF 0xD9 gives
MissingEoiMarker.  In every case the error return carries no packets. -/
theorem c8_error_cases (p : RtpPacketizer) (s0 w h ts : Nat) (jpeg : List Nat) :
    (jpeg = [] → p.packetize_jpeg s0 jpeg w h ts = .error .EmptyData) ∧
    (jpeg ≠ [] → (jpeg.length < 4 ∨ jpeg.getD 0 0 ≠ 0xFF ∨ jpeg.getD 1 0 ≠ 0xD8) →
      p.packetize_jpeg s0 jpeg w h ts = .error .MissingSoiMarker) ∧
    (4 ≤ jpeg.length → jpeg.getD 0 0 = 0xFF → jpeg.getD 1 0 = 0xD8 →
      (jpeg.getD (jpeg.length - 2) 0 ≠ 0xFF ∨ jpeg.getD (jpeg.length - 1) 0 ≠ 0xD9) →
      p.packetize_jpeg s0 jpeg w h ts = .error .MissingEoiMarker) := by
  refine ⟨fun hj => by subst hj; rfl, fun hne hbad => ?_, fun h4 h0 h1 heoi => ?_⟩
  · have hemp : jpeg.isEmpty = false := by
      cases jpeg with
      | nil => exact absurd rfl hne
      | cons a l => rfl
    unfold RtpPacketizer.packetize_jpeg
    rw [hemp, validate_method_missing_soi hbad]
    rfl
  · have hemp : jpeg.isEmpty = false := by
      cases jpeg with
      | nil => simp at h4
      | cons a l => rfl
    unfold RtpPacketizer.packetize_jpeg
    rw [hemp, validate_method_missing_eoi h4 h0 h1 heoi]
    rfl

/-- C8 witness: the three amended cases evaluated on concrete inputs. -/
theorem c8_error_cases_witness :
    (RtpPacketizer.new 1 1400).packetize_jpeg 0 [] 640 480 0 = .error .EmptyData ∧
    (RtpPacketizer.new 1 1400).packetize_jpeg 0 [1, 2, 3, 4] 640 480 0
      = .error .MissingSoiMarker ∧
    (RtpPacketizer.new 1 1400).packetize_jpeg 0 [0xFF, 0xD8, 0, 0, 0] 640 480 0
      = .error .MissingEoiMarker :=
  ⟨(c8_error_cases (RtpPacketizer.new 1 1400) 0 640 480 0 []).1 rfl,
   (c8_error_cases (RtpPacketizer.new 1 1400) 0 640 480 0 [1, 2, 3, 4]).2.1
      (by decide) (by decide),
   (c8_error_cases (RtpPacketizer.new 1 1400) 0 640 480 0 [0xFF, 0xD8, 0, 0, 0]).2.2
      (by decide) (by decide) (by decide) (by decide)⟩

/-- C9 counterexample: with MTU 20 the computed max payload
mtu - 12 - 8 is zero, yet RtpPacketizer::new succeeds (it returns Self, not
a Result) and silently clamps max_payload_size to 1 (mod.rs:100); no
InvalidMtu error is raised at construction. -/
theorem c9_counterexample :
    RtpPacketizer.new 7 20
      = { payload_type := 26, ssrc := 7, mtu := 20, max_payload_size := 1 } ∧
    20 - (RTP_HEADER_SIZE + JPEG_HEADER_SIZE) = 0 := by decide

/-- C9 amended: construction never fails and the computed max payload size is
clamped to at least 1; correspondingly packetize_jpeg never reports
InvalidMtu at run time either (the InvalidMtu variant is never constructed
anywhere in the code). -/
theorem c9_no_invalid_mtu (ssrc mtu s0 w h ts n : Nat) (jpeg : List Nat) :
    0 < (RtpPacketizer.new ssrc mtu).max_payload_size ∧
    (RtpPacketizer.new ssrc mtu).packetize_jpeg s0 jpeg w h ts
      ≠ .error (.InvalidMtu n) := by
  refine ⟨new_mps_pos ssrc mtu, fun hcon => ?_⟩
  unfold RtpPacketizer.packetize_jpeg at hcon
  split at hcon
  · injection hcon with k
    exact PacketizerError.noConfusion k
  · split at hcon
    · rename_i e heq
      rcases validate_method_error_cases heq with rfl | rfl <;>
        (injection hcon with k; exact PacketizerError.noConfusion k)
    · split at hcon
      · rename_i e heq
        obtain ⟨e2, rfl⟩ := extract_error_cases heq
        injection hcon with k
        exact PacketizerError.noConfusion k
      · exact Except.noConfusion hcon

/-- C2 counterexample: for the input with an unreadable DQT length (SOI and
EOI present), parse_jpeg_for_rtp does not fail - the DQT branch breaks out of
the loop and the parser falls back to Ok with the full JPEG as scan data
(jpeg_parser.rs:138-139, 203-209).  extract_jpeg_payload therefore caches
Some(info), so build_rtp_packet emits Q = 128 in the first packet
(mod.rs:197, 241), not the 255 the claim requires for this input. -/
theorem c2_counterexample :
    parse_jpeg_for_rtp c2DqtJpeg
      = .ok { q_tables := [], width := 640, height := 480, jpeg_type := 0,
              scan_data := c2DqtJpeg } ∧
    ((pktsOf ((RtpPacketizer.new 1 1400).packetize_jpeg 0 c2DqtJpeg 640 480 0)).getD
        0 []).getD 17 0 = 128 ∧
    (128 : Nat) ≠ 255 := by decide

/-- C2 amended: for every input whose SOI and EOI markers are present (and
whose length is at least 4, as both validators require) and on which
parse_jpeg_for_rtp actually returns an error - for example an SOS whose
declared header overruns the buffer - packetize_jpeg still returns packets;
the Q byte of the first packet is 255, no Q-table header is emitted, and the
concatenation of the packet payloads (each packet minus its 20 header bytes)
is the full JPEG.  An unreadable DQT length is not such an input: there the
parser falls back to Ok and Q is 128. -/
theorem c2_degraded_parse (ssrc mtu s0 w h ts : Nat) (jpeg : List Nat)
    (e : JpegParseError)
    (h4 : 4 ≤ jpeg.length) (h0 : jpeg.getD 0 0 = 0xFF) (h1 : jpeg.getD 1 0 = 0xD8)
    (h2e : jpeg.getD (jpeg.length - 2) 0 = 0xFF)
    (h3e : jpeg.getD (jpeg.length - 1) 0 = 0xD9)
    (hperr : parse_jpeg_for_rtp jpeg = .error e) :
    ∃ r, (RtpPacketizer.new ssrc mtu).packetize_jpeg s0 jpeg w h ts = .ok r ∧
      r.1 ≠ [] ∧ (r.1.getD 0 []).getD 17 0 = 255 ∧
      (r.1.map (fun pkt => pkt.drop 20)).flatten = jpeg := by
  have hv := validate_method_ok h4 h0 h1 h2e h3e
  have hvf := validate_free_ok h4 h0 h1 h2e h3e
  have he := extract_ok_fallback hperr hvf
  have hne : jpeg ≠ [] := by
    intro hn
    rw [hn] at h4
    simp at h4
  have hok := @packetize_unfold_ok (RtpPacketizer.new ssrc mtu) s0 jpeg w h ts none jpeg
    hne hv he
  have hm := new_mps_pos ssrc mtu
  have hfrag := fragLoop_eq (RtpPacketizer.new ssrc mtu) none jpeg w h ts hm
    (jpeg.length + 1) 0 0 s0 (by omega)
  have hKpos : 0 < numPackets jpeg.length 0 (RtpPacketizer.new ssrc mtu).max_payload_size := by
    by_contra hc
    have := (numPackets_le_iff hm jpeg.length 0 0).mp (by omega)
    omega
  refine ⟨_, hok, ?_, ?_, ?_⟩
  · rw [hfrag]
    dsimp only
    intro hnil
    have hlen := congrArg List.length hnil
    simp only [List.length_ofFn, List.length_nil] at hlen
    omega
  · rw [hfrag]
    dsimp only
    rw [ofFn_getD _ 0 [] hKpos, build_getD_17]
    simp
  · rw [hfrag]
    dsimp only
    rw [List.map_ofFn]
    refine Eq.trans (congrArg List.flatten (congrArg List.ofFn (funext fun i => ?_)))
      (join_chunks hm jpeg.length jpeg (le_refl _))
    simp only [Function.comp_apply]
    rw [build_drop20_none, Nat.zero_add]

/-- C2 witness: a concrete frame whose SOS header length overruns the buffer,
so the parse fails with MissingEoi while SOI and EOI framing is intact. -/
theorem c2_degraded_parse_witness :
    ∃ r, (RtpPacketizer.new 1 1400).packetize_jpeg 7 c2ErrJpeg 640 480 0 = .ok r ∧
      r.1 ≠ [] ∧ (r.1.getD 0 []).getD 17 0 = 255 ∧
      (r.1.map (fun pkt => pkt.drop 20)).flatten = c2ErrJpeg :=
  c2_degraded_parse 1 1400 7 640 480 0 c2ErrJpeg .MissingEoi (by decide) (by decide)
    (by decide) (by decide) (by decide) (by decide)

/-- C4: per call starting from stored sequence number s0 (always < 2^16 in
reachable states, since it starts at 0 and every store is masked), the i-th
emitted packet carries sequence (s0 + i) mod 2^16 in bytes 2..3, and the
stored sequence number after the call is (s0 + K) mod 2^16 for K emitted
packets (unchanged on error).  Chaining calls gives consecutive sequence
numbers across frames that differ by exactly 1 modulo 2^16. -/
theorem c4_sequence_advance (ssrc mtu s0 w h ts : Nat) (jpeg : List Nat)
    (hs0 : s0 < 65536) :
    (∀ i, i < (pktsOf ((RtpPacketizer.new ssrc mtu).packetize_jpeg s0 jpeg w h ts)).length →
      ((pktsOf ((RtpPacketizer.new ssrc mtu).packetize_jpeg s0 jpeg w h ts)).getD i []).getD
            2 0 * 256 +
          ((pktsOf ((RtpPacketizer.new ssrc mtu).packetize_jpeg s0 jpeg w h ts)).getD i []).getD
            3 0
        = (s0 + i) % 65536) ∧
    seqAfter s0 ((RtpPacketizer.new ssrc mtu).packetize_jpeg s0 jpeg w h ts)
      = (s0 + (pktsOf ((RtpPacketizer.new ssrc mtu).packetize_jpeg s0 jpeg w h ts)).length)
          % 65536 := by
  cases hcall : (RtpPacketizer.new ssrc mtu).packetize_jpeg s0 jpeg w h ts with
  | error e =>
    refine ⟨fun i hi => by simp [pktsOf] at hi, ?_⟩
    simp [pktsOf, seqAfter, Nat.mod_eq_of_lt hs0]
  | ok r =>
    obtain ⟨info, pl, he, hr⟩ := packetize_new_ok hcall
    subst hr
    constructor
    · intro i hi
      simp only [pktsOf, List.length_ofFn] at hi
      simp only [pktsOf]
      rw [ofFn_getD _ i [] hi, build_getD_2, build_getD_3, iterate_nextSeq i s0 hs0]
      omega
    · simp only [pktsOf, seqAfter, List.length_ofFn]
      rw [iterate_nextSeq _ s0 hs0]

/-- C4 witness: the minimal test JPEG produces one packet from s0 = 0; its
sequence field is 0 and the stored sequence number becomes 1. -/
theorem c4_sequence_advance_witness :
    ((pktsOf ((RtpPacketizer.new 0x12345678 1400).packetize_jpeg 0 mjJpeg 640 480 1000)).getD
          0 []).getD 2 0 * 256 +
        ((pktsOf ((RtpPacketizer.new 0x12345678 1400).packetize_jpeg 0 mjJpeg 640 480
          1000)).getD 0 []).getD 3 0
      = (0 + 0) % 65536 ∧
    seqAfter 0 ((RtpPacketizer.new 0x12345678 1400).packetize_jpeg 0 mjJpeg 640 480 1000)
      = (0 + (pktsOf ((RtpPacketizer.new 0x12345678 1400).packetize_jpeg 0 mjJpeg 640 480
          1000)).length) % 65536 :=
  ⟨(c4_sequence_advance 0x12345678 1400 0 640 480 1000 mjJpeg (by decide)).1 0 (by decide),
   (c4_sequence_advance 0x12345678 1400 0 640 480 1000 mjJpeg (by decide)).2⟩

/-- C5: whenever packetize_jpeg emits at least one packet, a packet's RTP
marker bit (bit 7 of byte 1) is set exactly when it is the last packet of
the frame. -/
theorem c5_marker_bit_unique (ssrc mtu s0 w h ts : Nat) (jpeg : List Nat)
    (hne : pktsOf ((RtpPacketizer.new ssrc mtu).packetize_jpeg s0 jpeg w h ts) ≠ []) :
    ∀ i, i < (pktsOf ((RtpPacketizer.new ssrc mtu).packetize_jpeg s0 jpeg w h ts)).length →
      ((((pktsOf ((RtpPacketizer.new ssrc mtu).packetize_jpeg s0 jpeg w h ts)).getD i
            []).getD 1 0).testBit 7 = true
        ↔ i = (pktsOf ((RtpPacketizer.new ssrc mtu).packetize_jpeg s0 jpeg w h ts)).length
            - 1) := by
  cases hcall : (RtpPacketizer.new ssrc mtu).packetize_jpeg s0 jpeg w h ts with
  | error e =>
    rw [hcall] at hne
    exact absurd rfl hne
  | ok r =>
    obtain ⟨info, pl, he, hr⟩ := packetize_new_ok hcall
    subst hr
    intro i hi
    rw [hcall] at hne
    have hm := new_mps_pos ssrc mtu
    simp only [pktsOf, List.length_ofFn] at hi ⊢
    have hKpos : 0 < numPackets pl.length 0 (RtpPacketizer.new ssrc mtu).max_payload_size := by
      omega
    rw [ofFn_getD _ i [] hi, build_getD_1, new_payload_type]
    by_cases hlast : pl.length ≤ 0 + (i + 1) * (RtpPacketizer.new ssrc mtu).max_payload_size
    · rw [decide_eq_true hlast]
      have hKle : numPackets pl.length 0 (RtpPacketizer.new ssrc mtu).max_payload_size
          ≤ i + 1 := by
        rw [numPackets_le_iff hm]
        calc pl.length - 0 ≤ (i + 1) * (RtpPacketizer.new ssrc mtu).max_payload_size := by
              omega
          _ = (RtpPacketizer.new ssrc mtu).max_payload_size * (i + 1) := Nat.mul_comm _ _
      rw [if_pos rfl]
      constructor
      · intro _
        omega
      · intro _
        decide
    · rw [decide_eq_false hlast]
      have hKgt : i + 1 < numPackets pl.length 0 (RtpPacketizer.new ssrc mtu).max_payload_size
          + 1 := by
        by_contra hc
        have := (numPackets_le_iff hm pl.length 0 (i + 1)).mp (by omega)
        rw [Nat.mul_comm] at this
        omega
      rw [if_neg (by decide)]
      constructor
      · intro hbit
        exact absurd hbit (by decide)
      · intro heq
        exfalso
        have hKle : numPackets pl.length 0 (RtpPacketizer.new ssrc mtu).max_payload_size
            ≤ numPackets pl.length 0 (RtpPacketizer.new ssrc mtu).max_payload_size := le_refl _
        rw [numPackets_le_iff hm, Nat.mul_comm] at hKle
        have : i + 1 = numPackets pl.length 0 (RtpPacketizer.new ssrc mtu).max_payload_size := by
          omega
        rw [this] at hlast
        omega

/-- C5 witness: the minimal test JPEG yields a single packet whose marker
bit is set and which is the last (index 0 = length - 1). -/
theorem c5_marker_bit_unique_witness :
    ((((pktsOf ((RtpPacketizer.new 0x12345678 1400).packetize_jpeg 0 mjJpeg 640 480
          1000)).getD 0 []).getD 1 0).testBit 7 = true
      ↔ 0 = (pktsOf ((RtpPacketizer.new 0x12345678 1400).packetize_jpeg 0 mjJpeg 640 480
          1000)).length - 1) :=
  c5_marker_bit_unique 0x12345678 1400 0 640 480 1000 mjJpeg (by decide) 0 (by decide)

/-- C6 counterexample: build_rtp_packet writes (width / 8) as u8
(mod.rs:244), so at width 2048 the stored byte is (2048 / 8) % 256 = 0,
not 2048 / 8 = 256 as the claim asserts. -/
theorem c6_counterexample :
    (pktsOf ((RtpPacketizer.new 1 1400).packetize_jpeg 0 mjJpeg 2048 480 0)) ≠ [] ∧
    ((pktsOf ((RtpPacketizer.new 1 1400).packetize_jpeg 0 mjJpeg 2048 480 0)).getD
        0 []).getD 18 0 = 0 ∧
    2048 / 8 = 256 ∧ (0 : Nat) ≠ 256 := by decide

/-- C6 amended: for every packet of a packetize_jpeg(jpeg, w, h, ts) call on
a packetizer new(ssrc, mtu) with ts and ssrc in u32 range: byte 0 has high
two bits 2 and the rest 0; byte 1's low seven bits are 26; bytes 4..7
reassemble big-endian to ts (hence all packets of the frame share the
timestamp); bytes 8..11 reassemble big-endian to ssrc; byte 18 is
(w / 8) mod 256 and byte 19 is (h / 8) mod 256 - the u8 truncation of the
claim's w/8 and h/8. -/
theorem c6_header_fields (ssrc mtu s0 w h ts : Nat) (jpeg : List Nat)
    (hts : ts < 4294967296) (hssrc : ssrc < 4294967296) :
    ∀ i, i < (pktsOf ((RtpPacketizer.new ssrc mtu).packetize_jpeg s0 jpeg w h ts)).length →
      ((pktsOf ((RtpPacketizer.new ssrc mtu).packetize_jpeg s0 jpeg w h ts)).getD i
          []).getD 0 0 / 64 = 2 ∧
      ((pktsOf ((RtpPacketizer.new ssrc mtu).packetize_jpeg s0 jpeg w h ts)).getD i
          []).getD 0 0 % 64 = 0 ∧
      ((pktsOf ((RtpPacketizer.new ssrc mtu).packetize_jpeg s0 jpeg w h ts)).getD i
          []).getD 1 0 % 128 = 26 ∧
      ((pktsOf ((RtpPacketizer.new ssrc mtu).packetize_jpeg s0 jpeg w h ts)).getD i
            []).getD 4 0 * 16777216 +
          ((pktsOf ((RtpPacketizer.new ssrc mtu).packetize_jpeg s0 jpeg w h ts)).getD i
            []).getD 5 0 * 65536 +
          ((pktsOf ((RtpPacketizer.new ssrc mtu).packetize_jpeg s0 jpeg w h ts)).getD i
            []).getD 6 0 * 256 +
          ((pktsOf ((RtpPacketizer.new ssrc mtu).packetize_jpeg s0 jpeg w h ts)).getD i
            []).getD 7 0 = ts ∧
      ((pktsOf ((RtpPacketizer.new ssrc mtu).packetize_jpeg s0 jpeg w h ts)).getD i
            []).getD 8 0 * 16777216 +
          ((pktsOf ((RtpPacketizer.new ssrc mtu).packetize_jpeg s0 jpeg w h ts)).getD i
            []).getD 9 0 * 65536 +
          ((pktsOf ((RtpPacketizer.new ssrc mtu).packetize_jpeg s0 jpeg w h ts)).getD i
            []).getD 10 0 * 256 +
          ((pktsOf ((RtpPacketizer.new ssrc mtu).packetize_jpeg s0 jpeg w h ts)).getD i
            []).getD 11 0 = ssrc ∧
      ((pktsOf ((RtpPacketizer.new ssrc mtu).packetize_jpeg s0 jpeg w h ts)).getD i
          []).getD 18 0 = w / 8 % 256 ∧
      ((pktsOf ((RtpPacketizer.new ssrc mtu).packetize_jpeg s0 jpeg w h ts)).getD i
          []).getD 19 0 = h / 8 % 256 := by
  cases hcall : (RtpPacketizer.new ssrc mtu).packetize_jpeg s0 jpeg w h ts with
  | error e => exact fun i hi => by simp [pktsOf] at hi
  | ok r =>
    obtain ⟨info, pl, he, hr⟩ := packetize_new_ok hcall
    subst hr
    intro i hi
    simp only [pktsOf, List.length_ofFn] at hi ⊢
    rw [ofFn_getD _ i [] hi]
    rw [build_getD_0, build_getD_1, build_getD_4, build_getD_5, build_getD_6, build_getD_7,
      build_getD_8, build_getD_9, build_getD_10, build_getD_11, build_getD_18, build_getD_19,
      new_payload_type, new_ssrc]
    refine ⟨by decide, by decide, ?_, by omega, by omega, rfl, rfl⟩
    cases hdec : decide (pl.length ≤ 0 + (i + 1) * (RtpPacketizer.new ssrc mtu).max_payload_size)
    · rw [if_neg (by decide)]
    · rw [if_pos rfl]
      decide

/-- C6 witness: the amended field facts at the single packet of the minimal
test JPEG. -/
theorem c6_header_fields_witness :
    ((pktsOf ((RtpPacketizer.new 0x12345678 1400).packetize_jpeg 0 mjJpeg 640 480
        1000)).getD 0 []).getD 0 0 / 64 = 2 ∧
    ((pktsOf ((RtpPacketizer.new 0x12345678 1400).packetize_jpeg 0 mjJpeg 640 480
        1000)).getD 0 []).getD 0 0 % 64 = 0 ∧
    ((pktsOf ((RtpPacketizer.new 0x12345678 1400).packetize_jpeg 0 mjJpeg 640 480
        1000)).getD 0 []).getD 1 0 % 128 = 26 ∧
    ((pktsOf ((RtpPacketizer.new 0x12345678 1400).packetize_jpeg 0 mjJpeg 640 480
          1000)).getD 0 []).getD 4 0 * 16777216 +
        ((pktsOf ((RtpPacketizer.new 0x12345678 1400).packetize_jpeg 0 mjJpeg 640 480
          1000)).getD 0 []).getD 5 0 * 65536 +
        ((pktsOf ((RtpPacketizer.new 0x12345678 1400).packetize_jpeg 0 mjJpeg 640 480
          1000)).getD 0 []).getD 6 0 * 256 +
        ((pktsOf ((RtpPacketizer.new 0x12345678 1400).packetize_jpeg 0 mjJpeg 640 480
          1000)).getD 0 []).getD 7 0 = 1000 ∧
    ((pktsOf ((RtpPacketizer.new 0x12345678 1400).packetize_jpeg 0 mjJpeg 640 480
          1000)).getD 0 []).getD 8 0 * 16777216 +
        ((pktsOf ((RtpPacketizer.new 0x12345678 1400).packetize_jpeg 0 mjJpeg 640 480
          1000)).getD 0 []).getD 9 0 * 65536 +
        ((pktsOf ((RtpPacketizer.new 0x12345678 1400).packetize_jpeg 0 mjJpeg 640 480
          1000)).getD 0 []).getD 10 0 * 256 +
        ((pktsOf ((RtpPacketizer.new 0x12345678 1400).packetize_jpeg 0 mjJpeg 640 480
          1000)).getD 0 []).getD 11 0 = 0x12345678 ∧
    ((pktsOf ((RtpPacketizer.new 0x12345678 1400).packetize_jpeg 0 mjJpeg 640 480
        1000)).getD 0 []).getD 18 0 = 640 / 8 % 256 ∧
    ((pktsOf ((RtpPacketizer.new 0x12345678 1400).packetize_jpeg 0 mjJpeg 640 480
        1000)).getD 0 []).getD 19 0 = 480 / 8 % 256 :=
  c6_header_fields 0x12345678 1400 0 640 480 1000 mjJpeg (by decide) (by decide) 0 (by decide)

theorem build_drop_some_pos (p : RtpPacketizer) (info : JpegInfo)
    (seq ts fo w h : Nat) (m : Bool) (pl : List Nat) (hfo : fo ≠ 0) :
    (p.build_rtp_packet (some info) seq ts fo w h m pl).drop 20 = pl := by
  unfold RtpPacketizer.build_rtp_packet
  have hbeq : (fo == 0) = false := by simp [hfo]
  simp [hbeq]

theorem build_drop_some_zero (p : RtpPacketizer) (info : JpegInfo)
    (seq ts w h : Nat) (m : Bool) (pl : List Nat) :
    (p.build_rtp_packet (some info) seq ts 0 w h m pl).drop (20 + qhdrSize info 0) = pl := by
  cases hq : info.q_tables.isEmpty
  case false =>
    have hqh : qhdrSize info 0 = 4 + (info.q_tables.map List.length).sum := by
      simp [qhdrSize, hq]
    rw [hqh, ← List.drop_drop]
    have h20 : (p.build_rtp_packet (some info) seq ts 0 w h m pl).drop 20
        = (0 :: 0 :: ((info.q_tables.map List.length).sum % 65536 / 256) ::
            ((info.q_tables.map List.length).sum % 65536 % 256) ::
            info.q_tables.flatten) ++ pl := by
      unfold RtpPacketizer.build_rtp_packet
      simp [hq]
    rw [h20]
    have hlen : (0 :: 0 :: ((info.q_tables.map List.length).sum % 65536 / 256) ::
        ((info.q_tables.map List.length).sum % 65536 % 256) ::
        info.q_tables.flatten).length = 4 + (info.q_tables.map List.length).sum := by
      simp only [List.length_cons, List.length_flatten]
      omega
    rw [← hlen, List.drop_left]
  case true =>
    have hqh : qhdrSize info 0 = 0 := by simp [qhdrSize, hq]
    rw [hqh]
    unfold RtpPacketizer.build_rtp_packet
    simp [hq]

theorem build_drop_payload (p : RtpPacketizer) (info : JpegInfo) (seq ts w h : Nat)
    (m : Bool) (pl : List Nat) (i mps : Nat) (hm : 0 < mps) :
    (p.build_rtp_packet (some info) seq ts (0 + i * mps) w h m pl).drop
        (20 + qhdrSize info i) = pl := by
  cases i with
  | zero =>
    have h0 : (0 : Nat) + 0 * mps = 0 := by simp
    rw [h0]
    exact build_drop_some_zero p info seq ts w h m pl
  | succ j =>
    have hsm : (j + 1) * mps = j * mps + mps := Nat.succ_mul j mps
    have hfo : (0 : Nat) + (j + 1) * mps ≠ 0 := by omega
    have hq : qhdrSize info (j + 1) = 0 := by simp [qhdrSize]
    rw [hq]
    exact build_drop_some_pos p info seq ts _ w h m pl hfo

/-- C7: for a successful packetize_jpeg call on a frame that parses to info
(with scan data below the 24-bit fragment-offset range): the first packet's
24-bit fragment-offset field is 0, each later packet's fragment offset is the
previous packet's plus the previous packet's scan-payload size (the bytes
after the 20 header bytes and, on the first packet, the Q-table header), and
the concatenation of all scan payloads is exactly the scan data an
independent parse of the same JPEG yields. -/
theorem c7_fragment_offsets (ssrc mtu s0 w h ts : Nat) (jpeg : List Nat) (info : JpegInfo)
    (r : List (List Nat) × Nat)
    (hparse : parse_jpeg_for_rtp jpeg = .ok info)
    (hlen : info.scan_data.length < 16777216)
    (hok : (RtpPacketizer.new ssrc mtu).packetize_jpeg s0 jpeg w h ts = .ok r) :
    (0 < r.1.length → fragOffOf (r.1.getD 0 []) = 0) ∧
    (∀ i, i + 1 < r.1.length →
      fragOffOf (r.1.getD (i + 1) [])
        = fragOffOf (r.1.getD i [])
          + ((r.1.getD i []).drop (20 + qhdrSize info i)).length) ∧
    (List.ofFn (fun i : Fin r.1.length =>
        (r.1.getD (i : Nat) []).drop (20 + qhdrSize info (i : Nat)))).flatten
      = info.scan_data := by
  obtain ⟨info2, pl, he, hr⟩ := packetize_new_ok hok
  rw [extract_ok_parse hparse] at he
  injection he with he
  injection he with hi2 hpl
  subst hi2
  subst hpl
  have hm := new_mps_pos ssrc mtu
  subst hr
  dsimp only
  have hfo_bound : ∀ i, i < numPackets info.scan_data.length 0
      (RtpPacketizer.new ssrc mtu).max_payload_size →
      i * (RtpPacketizer.new ssrc mtu).max_payload_size < 16777216 := by
    intro i hi
    have hnle : ¬ (numPackets info.scan_data.length 0
        (RtpPacketizer.new ssrc mtu).max_payload_size ≤ i) := by omega
    rw [numPackets_le_iff hm, Nat.mul_comm] at hnle
    omega
  have hfrag_i : ∀ i (hic : i < numPackets info.scan_data.length 0
      (RtpPacketizer.new ssrc mtu).max_payload_size),
      fragOffOf ((List.ofFn fun i : Fin (numPackets info.scan_data.length 0
          (RtpPacketizer.new ssrc mtu).max_payload_size) =>
        (RtpPacketizer.new ssrc mtu).build_rtp_packet (some info) (nextSeq^[(i : Nat)] s0) ts
          (0 + (i : Nat) * (RtpPacketizer.new ssrc mtu).max_payload_size) w h
          (decide (info.scan_data.length ≤
            0 + ((i : Nat) + 1) * (RtpPacketizer.new ssrc mtu).max_payload_size))
          ((info.scan_data.drop
            (0 + (i : Nat) * (RtpPacketizer.new ssrc mtu).max_payload_size)).take
            (RtpPacketizer.new ssrc mtu).max_payload_size)).getD i [])
        = i * (RtpPacketizer.new ssrc mtu).max_payload_size := by
    intro i hic
    rw [ofFn_getD _ i [] hic]
    simp only [Fin.val_mk]
    rw [build_fragOffOf _ _ _ _ _ _ _ _ _ (by have := hfo_bound i hic; omega)]
    omega
  have hdrop_i : ∀ i (hic : i < numPackets info.scan_data.length 0
      (RtpPacketizer.new ssrc mtu).max_payload_size),
      (((List.ofFn fun i : Fin (numPackets info.scan_data.length 0
          (RtpPacketizer.new ssrc mtu).max_payload_size) =>
        (RtpPacketizer.new ssrc mtu).build_rtp_packet (some info) (nextSeq^[(i : Nat)] s0) ts
          (0 + (i : Nat) * (RtpPacketizer.new ssrc mtu).max_payload_size) w h
          (decide (info.scan_data.length ≤
            0 + ((i : Nat) + 1) * (RtpPacketizer.new ssrc mtu).max_payload_size))
          ((info.scan_data.drop
            (0 + (i : Nat) * (RtpPacketizer.new ssrc mtu).max_payload_size)).take
            (RtpPacketizer.new ssrc mtu).max_payload_size)).getD i []).drop
          (20 + qhdrSize info i))
        = (info.scan_data.drop (i * (RtpPacketizer.new ssrc mtu).max_payload_size)).take
            (RtpPacketizer.new ssrc mtu).max_payload_size := by
    intro i hic
    rw [ofFn_getD _ i [] hic]
    simp only [Fin.val_mk]
    rw [build_drop_payload _ _ _ _ _ _ _ _ _ _ hm, Nat.zero_add]
  refine ⟨?_, ?_, ?_⟩
  · intro h0
    rw [List.length_ofFn] at h0
    rw [hfrag_i 0 h0, Nat.zero_mul]
  · intro i hib
    rw [List.length_ofFn] at hib
    rw [hfrag_i (i + 1) hib, hfrag_i i (by omega), hdrop_i i (by omega)]
    have hnle : ¬ (numPackets info.scan_data.length 0
        (RtpPacketizer.new ssrc mtu).max_payload_size ≤ i + 1) := by omega
    rw [numPackets_le_iff hm, Nat.mul_comm] at hnle
    have hsm : (i + 1) * (RtpPacketizer.new ssrc mtu).max_payload_size
        = i * (RtpPacketizer.new ssrc mtu).max_payload_size
          + (RtpPacketizer.new ssrc mtu).max_payload_size := Nat.succ_mul _ _
    rw [List.length_take, List.length_drop]
    omega
  · rw [List.length_ofFn]
    refine Eq.trans (congrArg List.flatten (congrArg List.ofFn (funext fun i => ?_)))
      (join_chunks hm info.scan_data.length info.scan_data (le_refl _))
    exact hdrop_i (i : Nat) i.2

/-- C7 witness: the first packet of the minimal test JPEG has fragment
offset 0. -/
theorem c7_fragment_offsets_witness :
    fragOffOf ((pktsOf ((RtpPacketizer.new 0x12345678 1400).packetize_jpeg 0 mjJpeg 640 480
      1000)).getD 0 []) = 0 :=
  (c7_fragment_offsets 0x12345678 1400 0 640 480 1000 mjJpeg
      { q_tables := [], width := 640, height := 480, jpeg_type := 0,
        scan_data := [1, 2, 3, 4] }
      (((RtpPacketizer.new 0x12345678 1400).packetize_jpeg 0 mjJpeg 640 480 1000).toOption.getD
        ([], 0))
      (by decide) (by decide) (by decide)).1 (by decide)

theorem parse_unfold {data : List Nat} (h4 : 4 ≤ data.length)
    (h0 : data.getD 0 0 = 0xFF) (h1 : data.getD 1 0 = 0xD8) :
    parse_jpeg_for_rtp data = parseLoop data data.length 2 [] 0 0 0 := by
  unfold parse_jpeg_for_rtp
  rw [if_neg (by omega), if_neg (by simp only [h0, h1]; decide)]

/-- C3 counterexample: in c3Jpeg the SOS length-declared header ends at
index 6 and the last 0xFF 0xD9 of the input begins at index 11, so the claim
predicts scan_data = bytes 6..10 = [0xAA, 0xFF, 0xD9, 0xBB, 0xCC]; the
parser instead stops at the first 0xFF 0xD9 at-or-after the scan start
(index 7, jpeg_parser.rs:107-113) and returns scan_data = [0xAA]. -/
theorem c3_counterexample :
    parse_jpeg_for_rtp c3Jpeg
      = .ok { q_tables := [], width := 0, height := 0, jpeg_type := 0,
              scan_data := [0xAA] } ∧
    c3Jpeg.getD 11 0 = 0xFF ∧ c3Jpeg.getD 12 0 = 0xD9 ∧ c3Jpeg.length = 13 ∧
    (c3Jpeg.drop 6).take (11 - 6) = [0xAA, 0xFF, 0xD9, 0xBB, 0xCC] ∧
    ([0xAA] : List Nat) ≠ [0xAA, 0xFF, 0xD9, 0xBB, 0xCC] := by decide

/-- C3 amended: whenever parse_jpeg_for_rtp succeeds and the marker walk
dispatches an SOS marker, the returned scan_data is the bytes from the end
of the SOS length-declared header (position sp + 2 + declared length, for
the SOS marker at sp) up to the FIRST 0xFF 0xD9 pair at or after that point
- not the last EOI in the input: no 0xFF 0xD9 occurs inside the returned
slice and one begins immediately after it. -/
theorem c3_scan_data_first_eoi (data : List Nat) (info : JpegInfo)
    (hok : parse_jpeg_for_rtp data = .ok info)
    (hsos : walkHits data 0xDA data.length 2 = true) :
    ∃ sp ss se,
      data.getD sp 0 = 0xFF ∧ data.getD (sp + 1) 0 = 0xDA ∧
      ss = sp + 2 + be16 (data.getD (sp + 2) 0) (data.getD (sp + 3) 0) ∧
      ss ≤ se ∧ se < data.length - 1 ∧
      data.getD se 0 = 0xFF ∧ data.getD (se + 1) 0 = 0xD9 ∧
      (∀ j, ss ≤ j → j < se → ¬(data.getD j 0 = 0xFF ∧ data.getD (j + 1) 0 = 0xD9)) ∧
      info.scan_data = (data.drop ss).take (se - ss) := by
  have h4 : ¬ data.length < 4 := by
    intro hc
    unfold parse_jpeg_for_rtp at hok
    rw [if_pos hc] at hok
    cases hok
  have hsoi : ¬ (data.getD 0 0 ≠ 0xFF ∨ data.getD 1 0 ≠ 0xD8) := by
    intro hc
    unfold parse_jpeg_for_rtp at hok
    rw [if_neg h4, if_pos hc] at hok
    cases hok
  unfold parse_jpeg_for_rtp at hok
  rw [if_neg h4, if_neg hsoi] at hok
  exact parseLoop_sos data data.length 2 [] 0 0 0 info hok hsos

/-- C3 witness: the amended characterization at the minimal test JPEG. -/
theorem c3_scan_data_first_eoi_witness :
    ∃ sp ss se,
      mjJpeg.getD sp 0 = 0xFF ∧ mjJpeg.getD (sp + 1) 0 = 0xDA ∧
      ss = sp + 2 + be16 (mjJpeg.getD (sp + 2) 0) (mjJpeg.getD (sp + 3) 0) ∧
      ss ≤ se ∧ se < mjJpeg.length - 1 ∧
      mjJpeg.getD se 0 = 0xFF ∧ mjJpeg.getD (se + 1) 0 = 0xD9 ∧
      (∀ j, ss ≤ j → j < se → ¬(mjJpeg.getD j 0 = 0xFF ∧ mjJpeg.getD (j + 1) 0 = 0xD9)) ∧
      ({ q_tables := [], width := 640, height := 480, jpeg_type := 0,
         scan_data := [1, 2, 3, 4] } : JpegInfo).scan_data
        = (mjJpeg.drop ss).take (se - ss) :=
  c3_scan_data_first_eoi mjJpeg _ (by decide) (by decide)

theorem parseLoopP_agrees (data : List Nat) :
    ∀ (fuel pos : Nat) (q : List (List Nat)) (w h t : Nat)
      (res : Except JpegParseError JpegInfo),
      parseLoopP data fuel pos q w h t = some res →
      parseLoop data fuel pos q w h t = res
  | 0, pos, q, w, h, t, res, hp => by
    exact Option.some.inj hp
  | fuel + 1, pos, q, w, h, t, res, hp => by
    simp only [parseLoopP] at hp
    simp only [parseLoop]
    by_cases h1 : pos < data.length - 1
    case neg =>
      rw [if_neg h1] at hp ⊢
      exact Option.some.inj hp
    rw [if_pos h1] at hp ⊢
    by_cases h2 : data.getD pos 0 ≠ 0xFF
    case pos =>
      rw [if_pos h2] at hp ⊢
      exact parseLoopP_agrees data fuel (pos + 1) q w h t res hp
    rw [if_neg h2] at hp ⊢
    by_cases h4 : data.getD (pos + 1) 0 = 0xD8
    case pos =>
      rw [if_pos h4] at hp ⊢
      exact parseLoopP_agrees data fuel (pos + 2) q w h t res hp
    rw [if_neg h4] at hp ⊢
    by_cases h5 : data.getD (pos + 1) 0 = 0xD9
    case pos =>
      rw [if_pos h5] at hp ⊢
      exact Option.some.inj hp
    rw [if_neg h5] at hp ⊢
    by_cases h3 : data.getD (pos + 1) 0 = 0xDA
    case pos =>
      rw [if_pos h3] at hp ⊢
      by_cases h6 : data.length < pos + 4
      case pos =>
        rw [if_pos h6] at hp ⊢
        exact Option.some.inj hp
      rw [if_neg h6] at hp ⊢
      by_cases h7 : data.length - 1 ≤
          scanEndLoop data
            (data.length - 1 - (pos + 2 + be16 (data.getD (pos + 2) 0) (data.getD (pos + 3) 0)))
            (pos + 2 + be16 (data.getD (pos + 2) 0) (data.getD (pos + 3) 0))
      case pos =>
        rw [if_pos h7] at hp ⊢
        exact Option.some.inj hp
      rw [if_neg h7] at hp ⊢
      exact Option.some.inj hp
    rw [if_neg h3] at hp ⊢
    by_cases h6 : data.getD (pos + 1) 0 = 0xDB
    case pos =>
      rw [if_pos h6] at hp ⊢
      by_cases h7 : data.length < pos + 4
      case pos =>
        rw [if_pos h7] at hp ⊢
        exact Option.some.inj hp
      rw [if_neg h7] at hp ⊢
      by_cases h8 : data.length < pos + 2 + be16 (data.getD (pos + 2) 0) (data.getD (pos + 3) 0)
      case pos =>
        rw [if_pos h8] at hp ⊢
        exact Option.some.inj hp
      rw [if_neg h8] at hp ⊢
      by_cases h9 : be16 (data.getD (pos + 2) 0) (data.getD (pos + 3) 0) < 2
      case pos =>
        rw [if_pos h9] at hp
        cases hp
      rw [if_neg h9] at hp
      exact parseLoopP_agrees data fuel _ _ w h t res hp
    rw [if_neg h6] at hp ⊢
    by_cases h9 : data.getD (pos + 1) 0 = 0xC0
    case pos =>
      rw [if_pos h9] at hp ⊢
      by_cases h10 : data.length < pos + 4
      case pos =>
        rw [if_pos h10] at hp ⊢
        exact Option.some.inj hp
      rw [if_neg h10] at hp ⊢
      by_cases h11 : data.length < pos + 9
      case pos =>
        rw [if_pos h11] at hp ⊢
        exact Option.some.inj hp
      rw [if_neg h11] at hp ⊢
      by_cases h12 : data.length = pos + 11 ∧ data.getD (pos + 9) 0 = 3
      case pos =>
        rw [if_pos h12] at hp
        cases hp
      rw [if_neg h12] at hp
      exact parseLoopP_agrees data fuel _ q _ _ _ res hp
    rw [if_neg h9] at hp ⊢
    by_cases h12 : data.getD (pos + 1) 0 = 0x00 ∨ data.getD (pos + 1) 0 = 0xFF
    case pos =>
      rw [if_pos h12] at hp ⊢
      exact parseLoopP_agrees data fuel (pos + 1) q w h t res hp
    rw [if_neg h12] at hp ⊢
    by_cases h13 : data.length < pos + 4
    case pos =>
      rw [if_pos h13] at hp ⊢
      exact Option.some.inj hp
    rw [if_neg h13] at hp ⊢
    exact parseLoopP_agrees data fuel _ q w h t res hp

theorem parse_agrees {data : List Nat} {res : Except JpegParseError JpegInfo}
    (hp : parse_jpeg_for_rtpP data = some res) :
    parse_jpeg_for_rtp data = res := by
  unfold parse_jpeg_for_rtpP at hp
  unfold parse_jpeg_for_rtp
  by_cases h4 : data.length < 4
  case pos =>
    rw [if_pos h4] at hp ⊢
    exact Option.some.inj hp
  rw [if_neg h4] at hp ⊢
  by_cases h0 : data.getD 0 0 ≠ 0xFF ∨ data.getD 1 0 ≠ 0xD8
  case pos =>
    rw [if_pos h0] at hp ⊢
    exact Option.some.inj hp
  rw [if_neg h0] at hp ⊢
  exact parseLoopP_agrees data data.length 2 [] 0 0 0 res hp

/-- C10 counterexample: the claim's input class ("length at least 4, begins
0xFF 0xD8, the marker walk finds no SOS") contains inputs on which
parse_jpeg_for_rtp does not return Ok - it panics.  In the panic-aware
model: [FF D8 FF DB 00 00] declares a DQT of length 0, so the Rust slice
data[pos+2..pos+length] has start > end and panics (jpeg_parser.rs:143);
[FF D8 FF C0 00 0B 08 01 E0 02 80 03 FF] is a 3-component SOF0 whose
sampling byte sits exactly at the end of the buffer, so the data[pos+9]
read is out of range and panics (jpeg_parser.rs:169).  Both satisfy the
claim's hypotheses, and parse_jpeg_for_rtpP returns none (panic) on both,
not the predicted Ok with the whole input as scan data. -/
theorem c10_panic_counterexample :
    parse_jpeg_for_rtpP [0xFF, 0xD8, 0xFF, 0xDB, 0x00, 0x00] = none ∧
    walkHits [0xFF, 0xD8, 0xFF, 0xDB, 0x00, 0x00] 0xDA
      ([0xFF, 0xD8, 0xFF, 0xDB, 0x00, 0x00] : List Nat).length 2 = false ∧
    4 ≤ ([0xFF, 0xD8, 0xFF, 0xDB, 0x00, 0x00] : List Nat).length ∧
    ([0xFF, 0xD8, 0xFF, 0xDB, 0x00, 0x00] : List Nat).getD 0 0 = 0xFF ∧
    ([0xFF, 0xD8, 0xFF, 0xDB, 0x00, 0x00] : List Nat).getD 1 0 = 0xD8 ∧
    parse_jpeg_for_rtpP [0xFF, 0xD8, 0xFF, 0xC0, 0x00, 0x0B, 0x08, 0x01, 0xE0,
      0x02, 0x80, 0x03, 0xFF] = none ∧
    walkHits [0xFF, 0xD8, 0xFF, 0xC0, 0x00, 0x0B, 0x08, 0x01, 0xE0, 0x02, 0x80, 0x03, 0xFF]
      0xDA ([0xFF, 0xD8, 0xFF, 0xC0, 0x00, 0x0B, 0x08, 0x01, 0xE0, 0x02, 0x80, 0x03,
        0xFF] : List Nat).length 2 = false := by decide

/-- C10 amended: on an input of length at least 4 that begins with
0xFF 0xD8, in which the marker walk dispatches no SOS marker before the end
of the data or a break (EOI, truncated segment), and on which the walk does
not panic - parse_jpeg_for_rtpP data = some res, excluding the DQT-length-
below-2 and SOF0-sampling-byte-at-end panic inputs - parse_jpeg_for_rtp
returns exactly res, which is Ok (never the MissingSos error) with the
whole input as scan_data and width/height the parsed values clamped up to
640/480; when additionally no SOF0 marker is dispatched they are exactly
640 and 480. -/
theorem c10_no_sos_fallback (data : List Nat) (res : Except JpegParseError JpegInfo)
    (h4 : 4 <= data.length) (h0 : data.getD 0 0 = 0xFF) (h1 : data.getD 1 0 = 0xD8)
    (hnosos : walkHits data 0xDA data.length 2 = false)
    (hnp : parse_jpeg_for_rtpP data = some res) :
    parse_jpeg_for_rtp data = res ∧
    (∃ q w h t, res = .ok { q_tables := q, width := max w 640, height := max h 480,
                            jpeg_type := t, scan_data := data }) ∧
    (walkHits data 0xC0 data.length 2 = false →
      ∃ q t, res = .ok { q_tables := q, width := 640, height := 480, jpeg_type := t,
                         scan_data := data }) := by
  have hagree := parse_agrees hnp
  subst hagree
  refine ⟨rfl, ?_, ?_⟩
  · rw [parse_unfold h4 h0 h1]
    obtain ⟨q2, w2, h2, t2, hh⟩ := parseLoop_noSos data data.length 2 [] 0 0 0 hnosos
    exact ⟨q2, w2, h2, t2, hh⟩
  · intro hnosof
    rw [parse_unfold h4 h0 h1]
    obtain ⟨q2, t2, hh⟩ :=
      parseLoop_noSos_noSof0 data data.length 2 [] 0 0 0 hnosos hnosof
    refine ⟨q2, t2, ?_⟩
    simpa [fallbackInfo] using hh

/-- C10 witness: a four-byte input with SOI and no further markers, on
which the walk neither finds an SOS nor panics. -/
theorem c10_no_sos_fallback_witness :
    parse_jpeg_for_rtp [0xFF, 0xD8, 0x00, 0x00]
      = .ok { q_tables := [], width := 640, height := 480, jpeg_type := 0,
              scan_data := [0xFF, 0xD8, 0x00, 0x00] } ∧
    (∃ q w h t, (.ok { q_tables := [], width := 640, height := 480, jpeg_type := 0,
                       scan_data := [0xFF, 0xD8, 0x00, 0x00] } : Except JpegParseError JpegInfo)
        = .ok { q_tables := q, width := max w 640, height := max h 480,
                jpeg_type := t, scan_data := [0xFF, 0xD8, 0x00, 0x00] }) ∧
    (walkHits [0xFF, 0xD8, 0x00, 0x00] 0xC0 ([0xFF, 0xD8, 0x00, 0x00] : List Nat).length 2
        = false →
      ∃ q t, (.ok { q_tables := [], width := 640, height := 480, jpeg_type := 0,
                    scan_data := [0xFF, 0xD8, 0x00, 0x00] } : Except JpegParseError JpegInfo)
        = .ok { q_tables := q, width := 640, height := 480, jpeg_type := t,
                scan_data := [0xFF, 0xD8, 0x00, 0x00] }) :=
  c10_no_sos_fallback [0xFF, 0xD8, 0x00, 0x00]
    (.ok { q_tables := [], width := 640, height := 480, jpeg_type := 0,
           scan_data := [0xFF, 0xD8, 0x00, 0x00] })
    (by decide) (by decide) (by decide) (by decide) (by decide)
